import Mathlib

/-!
Verification of the GRIME2 water-gauge core (`Calib` in calib.cpp and
`FindCalibGrid` in findcalibgrid.cpp) against its natural-language
specification.

The C++ code is shallowly embedded: `double` becomes `ℚ` (the claims under
study are about control flow, ordering and exact arithmetic, not about
floating-point rounding), `cv::Point` becomes a pair of `ℤ`, `cv::Point2d`
a pair of `ℚ`, `std::vector` a `List`, and every fallible operation returns
its `GC_STATUS` together with the state it leaves behind.  Calls into
external libraries (OpenCV `findHomography`, `matchTemplate`, file I/O,
JSON parsing) are modelled by passing their outputs in as parameters, while
all arithmetic and control flow of the repository code itself is translated
line by line.
-/

namespace Grime2

/-- Status codes from gc_types.h (header not under src/; the four codes are
visible at every use site in the translated sources). -/
inductive GC_STATUS where
  | GC_OK : GC_STATUS
  | GC_WARN : GC_STATUS
  | GC_ERR : GC_STATUS
  | GC_EXCEPT : GC_STATUS
deriving DecidableEq, Repr

open GC_STATUS

/-- cv::Point2d : a double-precision point, embedded over ℚ. -/
structure Pt where
  x : ℚ
  y : ℚ
deriving DecidableEq, Repr

instance : Inhabited Pt := ⟨⟨0, 0⟩⟩

/-- cv::Point : an integer point. -/
structure PtI where
  x : ℤ
  y : ℤ
deriving DecidableEq, Repr

instance : Inhabited PtI := ⟨⟨0, 0⟩⟩

/-- cv::Rect : an integer rectangle. -/
structure RectI where
  x : ℤ
  y : ℤ
  width : ℤ
  height : ℤ
deriving DecidableEq, Repr

instance : Inhabited RectI := ⟨⟨0, 0, 0, 0⟩⟩

/-- cv::Size. -/
structure SizeI where
  width : ℤ
  height : ℤ
deriving DecidableEq, Repr

/-- gc::LineEnds : one vertical search line, top and bottom integer endpoints. -/
structure LineEnds where
  top : PtI
  bot : PtI
deriving DecidableEq, Repr

instance : Inhabited LineEnds := ⟨⟨⟨0, 0⟩, ⟨0, 0⟩⟩⟩

/-- cvRound: round to nearest integer, ties to even (OpenCV uses the
processor default round-to-nearest-even mode). -/
def cvRound (q : ℚ) : ℤ :=
  if q - ⌊q⌋ < 1/2 then ⌊q⌋
  else if 1/2 < q - ⌊q⌋ then ⌊q⌋ + 1
  else if 2 ∣ ⌊q⌋ then ⌊q⌋ else ⌊q⌋ + 1

/-- Arithmetic right shift on C++ int (used as `height >> 4` etc.);
equals floor division for two's-complement ints. -/
def shr (n : ℤ) (k : ℕ) : ℤ := Int.fdiv n (2 ^ k)

theorem cvRound_intCast (n : ℤ) : cvRound n = n := by
  simp [cvRound]

theorem cvRound_add_int (q : ℚ) (n : ℤ) (hne : q - ⌊q⌋ ≠ 1/2) :
    cvRound (q + n) = cvRound q + n := by
  unfold cvRound
  rw [Int.floor_add_int]
  have hr : q + (n : ℚ) - ((⌊q⌋ + n : ℤ) : ℚ) = q - ⌊q⌋ := by push_cast; ring
  rw [hr]
  by_cases h1 : q - ⌊q⌋ < 1/2
  · rw [if_pos h1, if_pos h1]
  · have h2 : 1/2 < q - ⌊q⌋ := lt_of_le_of_ne (not_lt.mp h1) (Ne.symm hne)
    rw [if_neg h1, if_neg h1, if_pos h2, if_pos h2]
    ring

theorem abs_cvRound_sub_le_half (q : ℚ) : |(cvRound q : ℚ) - q| ≤ 1/2 := by
  unfold cvRound
  have h0 : (0 : ℚ) ≤ q - ⌊q⌋ := by
    have := Int.floor_le q
    linarith
  have h1 : q - ⌊q⌋ < 1 := by
    have := Int.lt_floor_add_one q
    linarith
  by_cases hc1 : q - ⌊q⌋ < 1/2
  · simp only [if_pos hc1]
    rw [abs_le]
    constructor <;> linarith
  · by_cases hc2 : 1/2 < q - ⌊q⌋
    · simp only [if_neg hc1, if_pos hc2]
      rw [abs_le]
      push_cast
      constructor <;> linarith
    · by_cases hc3 : 2 ∣ ⌊q⌋
      · simp only [if_neg hc1, if_neg hc2, if_pos hc3]
        rw [abs_le]
        constructor <;> linarith
      · simp only [if_neg hc1, if_neg hc2, if_neg hc3]
        rw [abs_le]
        push_cast
        constructor <;> linarith

/-- gc::CalibModel : the calibration data model held by `Calib` (fields as
used throughout calib.cpp; the defining header is not under src/, every field
below appears at its use sites). -/
structure CalibModel where
  gridSize : SizeI
  pixelPoints : List Pt
  worldPoints : List Pt
  moveSearchRegionLft : RectI
  moveSearchRegionRgt : RectI
  searchLines : List LineEnds
deriving DecidableEq, Repr

/-- CalibModel::clear() : reset every field to its default-constructed value
(empty vectors, zero sizes and rectangles). -/
def CalibModel.clear : CalibModel :=
  { gridSize := ⟨0, 0⟩
    pixelPoints := []
    worldPoints := []
    moveSearchRegionLft := ⟨0, 0, 0, 0⟩
    moveSearchRegionRgt := ⟨0, 0, 0, 0⟩
    searchLines := [] }

/-- The state of a gc::Calib object.  The two homography members are OpenCV
matrices whose numeric content is produced by the external `findHomography`;
only their emptiness is observable by the translated control flow, so each is
embedded as a `Bool` (`true` = non-empty matrix). -/
structure CalibState where
  model : CalibModel
  imgSize : SizeI
  homogPixToWorld : Bool
  homogWorldToPix : Bool
deriving DecidableEq, Repr

/-- Index access `pixelPoints[i]` (vector operator[] on an index that is in
range whenever the grid invariants hold; out-of-range C++ access is undefined
behaviour and is totalised here with a default point). -/
def ptAt (l : List Pt) (i : ℤ) : Pt := l.getD i.toNat default

/-- The search-line generation loop of Calib::CalcSearchSwaths: starting from
`ptTop`/`ptBot`, push one `LineEnds` per iteration, then advance the top point
by `(1, yInc)` and the bottom point by `(xIncBot, yInc)`.  `n` is the number
of iterations (`widthTop + 1` in the caller). -/
def swathLines (ptTop ptBot : Pt) (xIncBot yInc : ℚ) : ℕ → List LineEnds
  | 0 => []
  | Nat.succ n =>
      ⟨⟨cvRound ptTop.x, cvRound ptTop.y⟩, ⟨cvRound ptBot.x, cvRound ptBot.y⟩⟩ ::
        swathLines ⟨ptTop.x + 1, ptTop.y + yInc⟩ ⟨ptBot.x + xIncBot, ptBot.y + yInc⟩ xIncBot yInc n

/-- The validity test at the head of Calib::CalcSearchSwaths (negated: the
function proceeds exactly when this holds). -/
def swathGridValid (m : CalibModel) : Prop :=
  ¬(m.pixelPoints = [] ∨ m.worldPoints = [] ∨
    m.pixelPoints.length ≠ m.worldPoints.length ∨
    m.gridSize.width < 2 ∨ m.gridSize.height < 4)

instance (m : CalibModel) : Decidable (swathGridValid m) :=
  inferInstanceAs (Decidable (¬ _))

/-- Value `widthTop` of CalcSearchSwaths: one third of the horizontal extent of the
top grid row, rounded. -/
def swathWidthTop (m : CalibModel) : ℤ :=
  cvRound (((ptAt m.pixelPoints (m.gridSize.width - 1)).x -
            (ptAt m.pixelPoints 0).x) / 3)

/-- Value `widthBot` of CalcSearchSwaths (not rounded in the source). -/
def swathWidthBot (m : CalibModel) : ℚ :=
  ((ptAt m.pixelPoints (m.gridSize.width * m.gridSize.height - 1)).x -
   (ptAt m.pixelPoints (m.gridSize.width * (m.gridSize.height - 1))).x) / 3

/-- Value `height` of CalcSearchSwaths: 1.25 times the vertical span from the first
point of the first grid row to the first point of the last grid row,
rounded. -/
def swathHeight (m : CalibModel) : ℤ :=
  cvRound (((ptAt m.pixelPoints (m.gridSize.width * (m.gridSize.height - 1))).y -
            (ptAt m.pixelPoints 0).y) * (5/4))

/-- Value `topLftX` of CalcSearchSwaths. -/
def swathTopLftX (m : CalibModel) : ℚ :=
  (ptAt m.pixelPoints 0).x + (swathWidthTop m : ℚ)

/-- Value `topLftY` of CalcSearchSwaths: the first grid row's y, moved up by
height/8 and back down by the integer `height >> 4`. -/
def swathTopLftY (m : CalibModel) : ℚ :=
  (ptAt m.pixelPoints 0).y - (swathHeight m : ℚ) / 8 + ((shr (swathHeight m) 4 : ℤ) : ℚ)

/-- Value `botLftX` of CalcSearchSwaths. -/
def swathBotLftX (m : CalibModel) : ℚ :=
  (ptAt m.pixelPoints (m.gridSize.width * (m.gridSize.height - 1))).x + swathWidthBot m

/-- Value `botLftY` of CalcSearchSwaths, including the clamp to the bottom image
row. -/
def swathBotLftY (m : CalibModel) (imgHeight : ℤ) : ℚ :=
  min ((ptAt m.pixelPoints (m.gridSize.width * (m.gridSize.height - 1))).y +
         (swathHeight m : ℚ) / 8 + ((shr (swathHeight m) 4 : ℤ) : ℚ))
      ((imgHeight - 1 : ℤ) : ℚ)

/-- Value `xIncBot` of CalcSearchSwaths (ℚ division; 0 when widthTop = 0 where C++
doubles give inf, reachable only for a degenerate stored grid). -/
def swathXIncBot (m : CalibModel) : ℚ :=
  swathWidthBot m / (swathWidthTop m : ℚ)

/-- Value `yInc` of CalcSearchSwaths (ℚ division; same degenerate-input caveat as
`swathXIncBot`). -/
def swathYInc (m : CalibModel) : ℚ :=
  ((ptAt m.pixelPoints (m.gridSize.width - 1)).y - (ptAt m.pixelPoints 0).y) /
    ((swathHeight m : ℚ) * 3)

/-- Calib::CalcSearchSwaths (calib.cpp lines 522-572), translated literally.
`height >> 4` is the C++ arithmetic shift (`shr`), `/ 8.0` and `/ 3.0` are
exact rational divisions, `cvRound` rounds to nearest (ties to even). -/
def calcSearchSwaths (st : CalibState) : GC_STATUS × CalibState :=
  let m := st.model
  if swathGridValid m then
    let lines := swathLines ⟨swathTopLftX m, swathTopLftY m⟩
                            ⟨swathBotLftX m, swathBotLftY m st.imgSize.height⟩
                            (swathXIncBot m) (swathYInc m) (swathWidthTop m + 1).toNat
    (GC_OK, { st with model := { m with searchLines := lines } })
  else
    (GC_ERR, st)

/-- Calib::Calibrate (calib.cpp lines 59-243).
`bowtieDim` is the header constant GC_BOWTIE_TEMPLATE_DIM (its numeric value
lives in a header that is not under src/; no claim depends on it).
`findHPW` / `findHWP` are the outcomes of the two external OpenCV
`findHomography` calls: `.error ()` models a thrown cv::Exception (caught at
the bottom of the try block and reported as GC_EXCEPT), `.ok b` models a
returned matrix whose emptiness flag is `¬ b`.
The drawing block (lines 101-234) writes only the annotation output image
`imgOut` and never touches the model, the homographies or `m_imgSize`; it is
exercised only when a draw flag is set and is omitted here (every claim and
every internal caller, e.g. `Load`, uses the no-draw path). -/
def calibrate (bowtieDim : ℤ) (findHPW findHWP : Except Unit Bool)
    (st : CalibState) (pixelPts worldPts : List Pt) (gridSize imgSize : SizeI) :
    GC_STATUS × CalibState :=
  if pixelPts.length ≠ worldPts.length ∨ pixelPts = [] ∨ worldPts = [] ∨
     gridSize.width * gridSize.height ≠ (pixelPts.length : ℤ) ∨ gridSize.width ≤ 0 then
    (GC_ERR, st)
  else
    -- m_model.clear(); m_imgSize = imgSize; m_model.gridSize = gridSize;
    -- the two point vectors are copied element by element
    let st1 : CalibState :=
      { st with
        model := { CalibModel.clear with
                     gridSize := gridSize
                     pixelPoints := pixelPts
                     worldPoints := worldPts }
        imgSize := imgSize }
    match findHPW with
    | Except.error _ => (GC_EXCEPT, st1)
    | Except.ok hPW =>
      let st2 : CalibState := { st1 with homogPixToWorld := hPW }
      match findHWP with
      | Except.error _ => (GC_EXCEPT, st2)
      | Except.ok hWP =>
        let st3 : CalibState := { st2 with homogWorldToPix := hWP }
        let res := calcSearchSwaths st3
        if res.1 = GC_OK then
          let st4 := res.2
          let m := st4.model
          let p0 := ptAt m.pixelPoints 0
          let lft : RectI :=
            ⟨max 0 (cvRound p0.x - bowtieDim),
             max 0 (cvRound p0.y - bowtieDim),
             min (imgSize.width - cvRound p0.x) (bowtieDim * 2),
             min (imgSize.height - cvRound p0.y) (bowtieDim * 2)⟩
          let pIdx := ptAt m.pixelPoints (m.gridSize.width - 1)
          let rgt : RectI :=
            ⟨max 0 (cvRound pIdx.x - bowtieDim),
             max 0 (cvRound pIdx.y - bowtieDim),
             min (imgSize.width - cvRound pIdx.x) (bowtieDim * 2),
             min (imgSize.height - cvRound pIdx.y) (bowtieDim * 2)⟩
          (GC_OK, { st4 with model := { m with moveSearchRegionLft := lft,
                                               moveSearchRegionRgt := rgt } })
        else
          (res.1, res.2)

/-- Calib::MoveSearchROI (calib.cpp lines 295-299): returns the stored
rectangle unconditionally — there is no validity check and no error path. -/
def moveSearchROI (st : CalibState) (isLeft : Bool) : RectI :=
  if isLeft then st.model.moveSearchRegionLft else st.model.moveSearchRegionRgt

/-- numeric_limits<double>::min(), the smallest positive normal double,
used by MoveRefPoint as a sentinel coordinate. -/
def dblMin : ℚ := 1 / 2 ^ 1022

/-- Calib::MoveRefPoint (calib.cpp lines 300-321). -/
def moveRefPoint (st : CalibState) (isLeft : Bool) : Pt :=
  if st.model.pixelPoints = [] then
    ⟨dblMin, dblMin⟩
  else if st.model.gridSize.width * st.model.gridSize.height ≠
          (st.model.pixelPoints.length : ℤ) then
    ⟨dblMin, dblMin⟩
  else if isLeft then
    ptAt st.model.pixelPoints 0
  else
    ptAt st.model.pixelPoints (st.model.gridSize.width - 1)

/-- The two move-target search rectangles owned by a gc::FindCalibGrid
object (the slice of its state that SetMoveTargetROI reads and writes). -/
structure MoveROIs where
  rectLeftMoveSearch : RectI
  rectRightMoveSearch : RectI
deriving DecidableEq, Repr

/-- FindCalibGrid's constructor values for the two rectangles. -/
def MoveROIs.initial : MoveROIs :=
  ⟨⟨0, 0, 5, 5⟩, ⟨10, 0, 5, 5⟩⟩

/-- FindCalibGrid::SetMoveTargetROI (findcalibgrid.cpp lines 1178-1192).
Note the source has no `else`: the rectangle is stored even when the bounds
check fails and GC_ERR is returned. -/
def setMoveTargetROI (g : MoveROIs) (imgCols imgRows : ℤ) (rect : RectI)
    (isLeft : Bool) : GC_STATUS × MoveROIs :=
  let retVal := if rect.x < 0 ∨ rect.y < 0 ∨ rect.x + rect.width > imgCols ∨
                   rect.y + rect.height > imgRows then GC_ERR else GC_OK
  let g1 := if isLeft then { g with rectLeftMoveSearch := rect }
            else { g with rectRightMoveSearch := rect }
  (retVal, g1)

/-- The payload Calib::Save writes to its JSON file and Calib::Load reads
back (file-system access and JSON tokenisation are external I/O; the layout
is the fixed one produced by Save, so a Save-then-Load round trip is the
identity on this record). -/
structure SavedCalib where
  imageWidth : ℤ
  imageHeight : ℤ
  columns : ℤ
  rows : ℤ
  pixelPoints : List Pt
  worldPoints : List Pt
  left : RectI
  right : RectI
  searchLines : List LineEnds
deriving DecidableEq, Repr

/-- Quantisation applied by Save's `fixed << setprecision(3)` when printing a
point coordinate: round to 3 decimal places (nearest, ties to even). -/
def q3 (x : ℚ) : ℚ := ((cvRound (x * 1000) : ℤ) : ℚ) / 1000

/-- Calib::Save (calib.cpp lines 435-521).  On a valid model it produces the
saved payload: point coordinates quantised to 3 decimals, rectangles and
search-line endpoints written exactly (they are ints).  The could-not-open
file branch is external I/O and not modelled. -/
def saveCalib (st : CalibState) : GC_STATUS × Option SavedCalib :=
  let m := st.model
  if m.pixelPoints = [] ∨ m.worldPoints = [] ∨
     m.pixelPoints.length ≠ m.worldPoints.length ∨
     m.gridSize.width < 2 ∨ m.gridSize.height < 4 ∨ m.searchLines = [] then
    (GC_ERR, none)
  else
    (GC_OK, some
      { imageWidth := st.imgSize.width
        imageHeight := st.imgSize.height
        columns := m.gridSize.width
        rows := m.gridSize.height
        pixelPoints := m.pixelPoints.map (fun p => ⟨q3 p.x, q3 p.y⟩)
        worldPoints := m.worldPoints.map (fun p => ⟨q3 p.x, q3 p.y⟩)
        left := m.moveSearchRegionLft
        right := m.moveSearchRegionRgt
        searchLines := m.searchLines })

/-- Calib::Load (calib.cpp lines 322-434): copy the parsed payload into the
model, fail on a column*row/point-count mismatch, otherwise re-run Calibrate
on the loaded points (which recomputes the search lines and the move-search
rectangles rather than keeping the loaded ones). -/
def loadCalib (bowtieDim : ℤ) (findHPW findHWP : Except Unit Bool)
    (st : CalibState) (d : SavedCalib) : GC_STATUS × CalibState :=
  let st1 : CalibState :=
    { st with
      imgSize := ⟨d.imageWidth, d.imageHeight⟩
      model := { st.model with
                   pixelPoints := d.pixelPoints
                   worldPoints := d.worldPoints
                   moveSearchRegionLft := d.left
                   moveSearchRegionRgt := d.right
                   searchLines := d.searchLines } }
  if d.columns * d.rows ≠ (d.pixelPoints.length : ℤ) then
    (GC_ERR, st1)
  else
    let st2 : CalibState :=
      { st1 with model := { st1.model with gridSize := ⟨d.columns, d.rows⟩ } }
    calibrate bowtieDim findHPW findHWP st2 st2.model.pixelPoints st2.model.worldPoints
      st2.model.gridSize st2.imgSize

/-- Save to a file, then Load that file back into the same Calib object. -/
def saveThenLoad (bowtieDim : ℤ) (findHPW findHWP : Except Unit Bool)
    (st : CalibState) : GC_STATUS × CalibState :=
  match saveCalib st with
  | (GC_OK, some d) => loadCalib bowtieDim findHPW findHWP st d
  | (s, _) => (s, st)

/-- gc::TemplateBowtieItem : a candidate match (subpixel centre, normalized
correlation score). -/
structure MatchItem where
  pt : Pt
  score : ℚ
deriving DecidableEq, Repr

instance : Inhabited MatchItem := ⟨⟨⟨0, 0⟩, 0⟩⟩

/-- A correlation score map (the content of m_matchSpace /
m_matchSpaceSmall after the external cv::matchTemplate call): a row-major
list of rows of float scores. -/
abbrev ScoreMap := List (List ℚ)

/-- Scan one row of a score map, keeping the running maximum; a cell
replaces the current best only when strictly greater, so the first maximum
in scan order wins (cv::minMaxLoc semantics). -/
def rowMax (y : ℤ) : ℤ → List ℚ → ℚ × ℤ × ℤ → ℚ × ℤ × ℤ
  | _, [], acc => acc
  | x, v :: rest, acc =>
      rowMax y (x + 1) rest (if acc.1 < v then (v, x, y) else acc)

/-- Row-major scan of a score map (cv::minMaxLoc, maximum part). -/
def mapMax : ℤ → ScoreMap → ℚ × ℤ × ℤ → ℚ × ℤ × ℤ
  | _, [], acc => acc
  | y, row :: rest, acc => mapMax (y + 1) rest (rowMax y 0 row acc)

/-- cv::minMaxLoc over a score map: the maximum value and its (x, y)
location, initialised at -DBL_MAX (every float cell exceeds it). -/
def scanMax (m : ScoreMap) : ℚ × ℤ × ℤ := mapMax 0 m (-(2 ^ 1024 : ℚ), 0, 0)

/-- cv::circle(map, pt, 17, 0, FILLED): zero every cell of the filled disk
of radius 17 around (cx, cy) (the rasterised disk is the set of integer
cells at Euclidean distance at most the radius). -/
def suppressRow (cx cy y : ℤ) : ℤ → List ℚ → List ℚ
  | _, [] => []
  | x, v :: rest =>
      (if (x - cx) ^ 2 + (y - cy) ^ 2 ≤ 17 ^ 2 then 0 else v) ::
        suppressRow cx cy y (x + 1) rest

/-- Disk suppression over the whole map. -/
def suppressGo (cx cy : ℤ) : ℤ → ScoreMap → ScoreMap
  | _, [] => []
  | y, row :: rest => suppressRow cx cy y 0 row :: suppressGo cx cy (y + 1) rest

def suppress (m : ScoreMap) (cx cy : ℤ) : ScoreMap := suppressGo cx cy 0 m

/-- The candidate-extraction loop of FindCalibGrid::MatchTemplate
(findcalibgrid.cpp lines 994-1010), one recursive step per `for` iteration:
take the global maximum; if it is strictly inside the search-image bounds
then record it when its score reaches `minScore` and otherwise `break`;
an out-of-bounds maximum is neither recorded nor a stop; every path that
continues first zeroes the radius-17 disk around the maximum. -/
def matchLoop (imgCols imgRows templCols templRows : ℤ) (minScore : ℚ) :
    ℕ → ScoreMap → List MatchItem → List MatchItem
  | 0, _, acc => acc
  | Nat.succ n, m, acc =>
      let r := scanMax m
      if 0 < r.2.1 ∧ 0 < r.2.2 ∧ r.2.1 < imgCols - 1 ∧ r.2.2 < imgRows - 1 then
        if minScore ≤ r.1 then
          matchLoop imgCols imgRows templCols templRows minScore n
            (suppress m r.2.1 r.2.2)
            (acc ++ [⟨⟨(r.2.1 : ℚ) + (templCols : ℚ) / 2,
                       (r.2.2 : ℚ) + (templRows : ℚ) / 2⟩, r.1⟩])
        else acc
      else
        matchLoop imgCols imgRows templCols templRows minScore n
          (suppress m r.2.1 r.2.2) acc

/-- FindCalibGrid::MatchTemplate (findcalibgrid.cpp lines 950-1024).
`templateCount` is the header constant TEMPLATE_COUNT; `corrMap` is the
output of the external cv::matchTemplate(img, template, TM_CCOEFF_NORMED)
call; `prevItems` is the m_matchItems vector before the call (returned
untouched on a parameter-validation failure, which happens before the
`m_matchItems.clear()`). -/
def matchTemplate (templateCount index imgCols imgRows templCols templRows : ℤ)
    (minScore : ℚ) (numToFind : ℤ) (corrMap : ScoreMap)
    (prevItems : List MatchItem) : GC_STATUS × List MatchItem :=
  if index < 0 ∨ templateCount ≤ index then (GC_ERR, prevItems)
  else if minScore < 1/20 ∨ 1 < minScore then (GC_ERR, prevItems)
  else if numToFind < 1 ∨ 1000 < numToFind then (GC_ERR, prevItems)
  else
    let items := matchLoop imgCols imgRows templCols templRows minScore
                   numToFind.toNat corrMap []
    if items = [] then (GC_ERR, items) else (GC_OK, items)

/-- A cv::Mat score map together with its type tag, as consumed by
FindCalibGrid::SubpixelPointRefine (`is32FC1` = the matrix type is
CV_32FC1). -/
structure MatchSpace where
  data : ScoreMap
  is32FC1 : Bool
deriving DecidableEq, Repr

def MatchSpace.rows (m : MatchSpace) : ℤ := m.data.length

def MatchSpace.cols (m : MatchSpace) : ℤ := (m.data.headD []).length

/-- matchSpace.at<float>(Point(col, row)); in-range accesses (the only ones
the refined code performs, see the bounds theorem) read the cell, the
totalisation default 0 is never reached under the guard. -/
def MatchSpace.val (m : MatchSpace) (col row : ℤ) : ℚ :=
  (m.data.getD row.toNat []).getD col.toNat 0

/-- The 3x3 accumulation loop of SubpixelPointRefine (findcalibgrid.cpp
lines 1149-1163): (total, totalX, totalY) after visiting every (col, row)
with row in [ptMax.y-1, ptMax.y+1] and col in [ptMax.x-1, ptMax.x+1]. -/
def sumNeighborhood (m : MatchSpace) (p : PtI) : ℚ × ℚ × ℚ :=
  [p.y - 1, p.y, p.y + 1].foldl
    (fun acc row =>
      [p.x - 1, p.x, p.x + 1].foldl
        (fun acc2 col =>
          (acc2.1 + m.val col row,
           acc2.2.1 + m.val col row * (col : ℚ),
           acc2.2.2 + m.val col row * (row : ℚ)))
        acc)
    (0, 0, 0)

/-- FindCalibGrid::SubpixelPointRefine (findcalibgrid.cpp lines 1130-1174).
The out-parameter ptResult is written only on success, hence the Option. -/
def subpixelPointRefine (m : MatchSpace) (ptMax : PtI) : GC_STATUS × Option Pt :=
  if ptMax.x < 1 ∨ ptMax.y < 1 ∨ m.cols - 2 < ptMax.x ∨ m.rows - 2 < ptMax.y then
    (GC_ERR, none)
  else if m.is32FC1 = false then
    (GC_ERR, none)
  else
    let s := sumNeighborhood m ptMax
    (GC_OK, some ⟨s.2.1 / s.1, s.2.2 / s.1⟩)

/-- The refinement window x-origin computed by MatchRefine (findcalibgrid.cpp
lines 916-923); `templCols` is m_templates[0].cols. -/
def refineRectX (imgCols templCols : ℤ) (itemX : ℚ) : ℤ :=
  let rx := max 0 (cvRound itemX - shr templCols 1 - shr templCols 2)
  let rw := templCols + shr templCols 1
  if imgCols ≤ rx + rw then imgCols - rw else rx

/-- The refinement window y-origin computed by MatchRefine. -/
def refineRectY (imgRows templRows : ℤ) (itemY : ℚ) : ℤ :=
  let ry := max 0 (cvRound itemY - shr templRows 1 - shr templRows 2)
  let rh := templRows + shr templRows 1
  if imgRows ≤ ry + rh then imgRows - rh else ry

/-- FindCalibGrid::MatchRefine (findcalibgrid.cpp lines 873-949).
`smallMap` is the content of m_matchSpaceSmall after the external
cv::matchTemplate call on the window (the window placement itself only
enters through `refineRectX`/`refineRectY` in the reported position);
m_matchSpaceSmall is created as CV_32F, so its type tag is true.
The parameter `minScore` is validated and then shadowed by a local variable
in the source, so it does not influence the acceptance decision. -/
def matchRefine (templateCount index imgCols imgRows templCols templRows : ℤ)
    (minScore : ℚ) (numToFind : ℤ) (item : MatchItem) (smallMap : ScoreMap) :
    GC_STATUS × MatchItem :=
  if index < 0 ∨ templateCount ≤ index then (GC_ERR, item)
  else if minScore < 1/20 ∨ 1 < minScore then (GC_ERR, item)
  else if numToFind < 1 ∨ 1000 < numToFind then (GC_ERR, item)
  else
    let r := scanMax smallMap
    if item.score < r.1 then
      match subpixelPointRefine ⟨smallMap, true⟩ ⟨r.2.1, r.2.2⟩ with
      | (GC_OK, some ptFinal) =>
          (GC_OK,
           ⟨⟨(refineRectX imgCols templCols item.pt.x : ℚ) + ptFinal.x +
               (templCols : ℚ) / 2,
             (refineRectY imgRows templRows item.pt.y : ℚ) + ptFinal.y +
               (templRows : ℚ) / 2⟩, r.1⟩)
      | (s, _) => (s, item)
    else (GC_OK, item)

/-- Comparator `a.score > b.score` of the score sort in SortPoints; std::sort
leaves elements comparing equal in unspecified relative order, so any output
sorted under the reflexive closure `b.score ≤ a.score` is a valid run.
The embedding uses insertion sort, one such run. -/
def scoreGe (a b : MatchItem) : Prop := b.score ≤ a.score

/-- Comparator `a.pt.y < b.pt.y` of the vertical sort in SortPoints
(reflexive closure, see `scoreGe`). -/
def ptYLe (a b : MatchItem) : Prop := a.pt.y ≤ b.pt.y

/-- Comparator `a.pt.x < b.pt.x` of the per-row horizontal sort in SortPoints
(reflexive closure, see `scoreGe`). -/
def ptXLe (a b : MatchItem) : Prop := a.pt.x ≤ b.pt.x

instance : DecidableRel scoreGe := fun a b => inferInstanceAs (Decidable (b.score ≤ a.score))

instance : DecidableRel ptYLe := fun a b => inferInstanceAs (Decidable (a.pt.y ≤ b.pt.y))

instance : DecidableRel ptXLe := fun a b => inferInstanceAs (Decidable (a.pt.x ≤ b.pt.x))

instance : IsTotal MatchItem scoreGe := ⟨fun a b => le_total b.score a.score⟩

instance : IsTotal MatchItem ptYLe := ⟨fun a b => le_total a.pt.y b.pt.y⟩

instance : IsTotal MatchItem ptXLe := ⟨fun a b => le_total a.pt.x b.pt.x⟩

instance : IsTrans MatchItem scoreGe := ⟨fun _ _ _ hab hbc => le_trans hbc hab⟩

instance : IsTrans MatchItem ptYLe := ⟨fun _ _ _ hab hbc => le_trans hab hbc⟩

instance : IsTrans MatchItem ptXLe := ⟨fun _ _ _ hab hbc => le_trans hab hbc⟩

/-- The row-building loop of SortPoints (findcalibgrid.cpp lines 1096-1108):
row `i` gathers the y-sorted items at indices i*C .. i*C+C-1 and sorts them
by x. -/
def gridRows (R C : ℕ) (l : List MatchItem) : List (List MatchItem) :=
  (List.range R).map (fun i =>
    List.insertionSort ptXLe ((List.range C).map (fun j => l.getD (i * C + j) default)))

/-- FindCalibGrid::SortPoints (findcalibgrid.cpp lines 1060-1129).
`R`/`C` are the header constants CALIB_POINT_ROW_COUNT/CALIB_POINT_COL_COUNT
(2 columns x 4 rows per the target layout; kept as parameters since no claim
depends on their values).  Inputs: the found-candidate vector m_matchItems,
the previous m_itemArray and move rectangles (returned untouched on the
count-validation failure).  Output: status, new m_matchItems, new
m_itemArray, new left/right move-search rectangles. -/
def sortPoints (R C : ℕ) (imgWidth : ℤ) (items : List MatchItem)
    (prevArr : List (List MatchItem)) (rectL rectR : RectI) :
    GC_STATUS × List MatchItem × List (List MatchItem) × RectI × RectI :=
  let bowtieCount := R * C
  if items.length < bowtieCount then
    (GC_ERR, items, prevArr, rectL, rectR)
  else
    let tempItems := items.take bowtieCount
    let byScore := List.insertionSort scoreGe tempItems
    let byY := List.insertionSort ptYLe byScore
    let itemArray := gridRows R C byY
    let a0 := (itemArray.getD 0 []).getD 0 default
    let aC := (itemArray.getD 0 []).getD (C - 1) default
    let searchDim := cvRound (aC.pt.y - a0.pt.y)
    let lft : RectI :=
      ⟨max 0 (cvRound a0.pt.x - shr searchDim 1),
       max 0 (cvRound a0.pt.y - shr searchDim 1),
       searchDim, searchDim⟩
    let rgtX := cvRound aC.pt.x - shr searchDim 1
    let rgt : RectI :=
      ⟨rgtX,
       max 0 (cvRound aC.pt.y - shr searchDim 1),
       if imgWidth < searchDim + rgtX then imgWidth - rgtX - 1 else searchDim,
       searchDim⟩
    (GC_OK, byY, itemArray, lft, rgt)

/-- A grayscale image as a pixel function (only pixel reads feed the claims
about FindMoveTargets' scratch image). -/
abbrev Img := ℤ → ℤ → ℚ

/-- Membership of a pixel in a cv::Rect (x in [r.x, r.x + r.width) etc.). -/
def inRectB (r : RectI) (x y : ℤ) : Bool :=
  decide (r.x ≤ x ∧ x < r.x + r.width ∧ r.y ≤ y ∧ y < r.y + r.height)

/-- Operation `img(rect).copyTo(scratch(rect))`: overwrite the destination on the
rectangle, keep it elsewhere. -/
def copyRegion (dst src : Img) (r : RectI) : Img :=
  fun x y => if inRectB r x y then src x y else dst x y

/-- The scratch image built by FindCalibGrid::FindMoveTargets
(findcalibgrid.cpp lines 1217-1226): an all-zero image of the input's size,
then the left and right move-search rectangles copied over from the input. -/
def scratchImage (img : Img) (rectLeft rectRight : RectI) : Img :=
  copyRegion (copyRegion (fun _ _ => 0) img rectLeft) img rectRight

/-- The result-selection tail of FindCalibGrid::FindMoveTargets
(findcalibgrid.cpp lines 1255-1273), applied to the m_matchItems vector left
by the coarse match over the scratch image plus per-template refinement
(whenever that pipeline ends with a status other than GC_OK it leaves fewer
than 2 items, so the count test below also covers those paths). -/
def findMoveTargetsFrom (items : List MatchItem) : GC_STATUS × Option (Pt × Pt) :=
  if items.length ≠ 2 then (GC_ERR, none)
  else
    let a := items.getD 0 default
    let b := items.getD 1 default
    if a.pt.x < b.pt.x then (GC_OK, some (a.pt, b.pt))
    else (GC_OK, some (b.pt, a.pt))

/-! ## Spec-side predicates

These predicates transcribe claim sentences verbatim, to be compared with
the behaviour of the translated code. -/

/-- Spec claim (C2): a public operation that returns a failure status has
not mutated any field of its target state — instantiated at
SetMoveTargetROI, whose target state is the pair of move-search
rectangles. -/
def failureLeavesMoveROIsUnchanged : Prop :=
  ∀ (g : MoveROIs) (imgCols imgRows : ℤ) (rect : RectI) (isLeft : Bool),
    (setMoveTargetROI g imgCols imgRows rect isLeft).1 ≠ GC_OK →
    (setMoveTargetROI g imgCols imgRows rect isLeft).2 = g

/-- A model whose pixel-point array is empty or whose length differs from
gridSize.width*gridSize.height (the invalidity condition of claim C9). -/
def invalidModel (st : CalibState) : Prop :=
  st.model.pixelPoints = [] ∨
  st.model.gridSize.width * st.model.gridSize.height ≠ (st.model.pixelPoints.length : ℤ)

instance (st : CalibState) : Decidable (invalidModel st) := by
  unfold invalidModel; infer_instance

/-- Spec claim (C9), MoveSearchROI half: on an invalid model the accessor
fails or returns a sentinel rather than the stored model rectangle. -/
def roiAccessorRejectsInvalid : Prop :=
  ∀ (st : CalibState) (isLeft : Bool), invalidModel st →
    moveSearchROI st isLeft ≠
      (if isLeft then st.model.moveSearchRegionLft else st.model.moveSearchRegionRgt)

/-! ## Concrete objects used by witnesses and counterexamples -/

/-- A freshly constructed Calib state. -/
def emptyCalibState : CalibState :=
  { model := CalibModel.clear, imgSize := ⟨0, 0⟩,
    homogPixToWorld := false, homogWorldToPix := false }

/-- An uncalibrated state that still holds (stale) move-search rectangles. -/
def M9 : CalibState :=
  { model := { CalibModel.clear with
                 gridSize := ⟨2, 4⟩
                 moveSearchRegionLft := ⟨3, 4, 5, 6⟩
                 moveSearchRegionRgt := ⟨7, 8, 9, 10⟩ }
    imgSize := ⟨640, 400⟩
    homogPixToWorld := false
    homogWorldToPix := false }

/-- A calibrated-looking 2x4 model with one pixel point per grid node. -/
def MV : CalibState :=
  { model := { gridSize := ⟨2, 4⟩
               pixelPoints := [⟨0, 0⟩, ⟨3, 0⟩, ⟨0, 32⟩, ⟨3, 32⟩,
                               ⟨0, 64⟩, ⟨3, 64⟩, ⟨0, 96⟩, ⟨3, 96⟩]
               worldPoints := [⟨0, 40⟩, ⟨1, 40⟩, ⟨0, 30⟩, ⟨1, 30⟩,
                               ⟨0, 20⟩, ⟨1, 20⟩, ⟨0, 10⟩, ⟨1, 10⟩]
               moveSearchRegionLft := ⟨0, 0, 0, 0⟩
               moveSearchRegionRgt := ⟨0, 0, 0, 0⟩
               searchLines := [] }
    imgSize := ⟨640, 400⟩
    homogPixToWorld := false
    homogWorldToPix := false }

/-- The intensity-weighted centroid of the 3x3 neighborhood around `p`
(the mathematical description in claim C10), written as Finset sums over
the integer box [p.x-1, p.x+1] x [p.y-1, p.y+1]. -/
def centroid3x3 (m : MatchSpace) (p : PtI) : Pt :=
  ⟨(∑ q ∈ Finset.Icc (p.x - 1) (p.x + 1) ×ˢ Finset.Icc (p.y - 1) (p.y + 1),
      m.val q.1 q.2 * (q.1 : ℚ)) /
     (∑ q ∈ Finset.Icc (p.x - 1) (p.x + 1) ×ˢ Finset.Icc (p.y - 1) (p.y + 1),
       m.val q.1 q.2),
   (∑ q ∈ Finset.Icc (p.x - 1) (p.x + 1) ×ˢ Finset.Icc (p.y - 1) (p.y + 1),
      m.val q.1 q.2 * (q.2 : ℚ)) /
     (∑ q ∈ Finset.Icc (p.x - 1) (p.x + 1) ×ˢ Finset.Icc (p.y - 1) (p.y + 1),
       m.val q.1 q.2)⟩

theorem Icc_three (a : ℤ) : Finset.Icc (a - 1) (a + 1) = {a - 1, a, a + 1} := by
  ext z
  simp only [Finset.mem_Icc, Finset.mem_insert, Finset.mem_singleton]
  omega

theorem sum_three (f : ℤ → ℚ) (a : ℤ) :
    (∑ x ∈ Finset.Icc (a - 1) (a + 1), f x) = f (a - 1) + f a + f (a + 1) := by
  rw [Icc_three]
  rw [Finset.sum_insert (by simp only [Finset.mem_insert, Finset.mem_singleton]; omega),
      Finset.sum_insert (by simp only [Finset.mem_singleton]; omega),
      Finset.sum_singleton]
  ring

/-- The accumulation loop of SubpixelPointRefine computes exactly the three
sums over the 3x3 box. -/
theorem sumNeighborhood_eq (m : MatchSpace) (p : PtI) :
    sumNeighborhood m p =
      (∑ q ∈ Finset.Icc (p.x - 1) (p.x + 1) ×ˢ Finset.Icc (p.y - 1) (p.y + 1),
         m.val q.1 q.2,
       ∑ q ∈ Finset.Icc (p.x - 1) (p.x + 1) ×ˢ Finset.Icc (p.y - 1) (p.y + 1),
         m.val q.1 q.2 * (q.1 : ℚ),
       ∑ q ∈ Finset.Icc (p.x - 1) (p.x + 1) ×ˢ Finset.Icc (p.y - 1) (p.y + 1),
         m.val q.1 q.2 * (q.2 : ℚ)) := by
  simp only [sumNeighborhood, List.foldl, Finset.sum_product, sum_three, Prod.mk.injEq]
  refine ⟨by ring, by ring, by ring⟩

/-! ## Loop invariants of the MatchTemplate candidate extraction -/

theorem rowMax_lt (c : ℚ) (row : List ℚ) : ∀ (y x : ℤ) (acc : ℚ × ℤ × ℤ),
    acc.1 < c → (∀ v ∈ row, v < c) → (rowMax y x row acc).1 < c := by
  induction row with
  | nil => intro y x acc ha _; exact ha
  | cons v rest ih =>
      intro y x acc ha hr
      rw [rowMax]
      apply ih
      · by_cases hv : acc.1 < v
        · rw [if_pos hv]; exact hr v (List.mem_cons_self v rest)
        · rw [if_neg hv]; exact ha
      · exact fun w hw => hr w (List.mem_cons_of_mem v hw)

theorem mapMax_lt (c : ℚ) (m : ScoreMap) : ∀ (y : ℤ) (acc : ℚ × ℤ × ℤ),
    acc.1 < c → (∀ row ∈ m, ∀ v ∈ row, v < c) → (mapMax y m acc).1 < c := by
  induction m with
  | nil => intro y acc ha _; exact ha
  | cons row rest ih =>
      intro y acc ha hm
      rw [mapMax]
      apply ih
      · exact rowMax_lt c row y 0 acc ha (hm row (List.mem_cons_self row rest))
      · exact fun r hr => hm r (List.mem_cons_of_mem row hr)

theorem scanMax_lt (c : ℚ) (m : ScoreMap) (hc : -(2 ^ 1024 : ℚ) < c)
    (hm : ∀ row ∈ m, ∀ v ∈ row, v < c) : (scanMax m).1 < c :=
  mapMax_lt c m 0 _ hc hm

theorem suppressRow_mem (cx cy y : ℤ) (row : List ℚ) : ∀ (x : ℤ),
    ∀ v ∈ suppressRow cx cy y x row, v = 0 ∨ v ∈ row := by
  induction row with
  | nil => intro x v hv; exact absurd hv (List.not_mem_nil v)
  | cons w rest ih =>
      intro x v hv
      rw [suppressRow] at hv
      rcases List.mem_cons.mp hv with h | h
      · by_cases hd : (x - cx) ^ 2 + (y - cy) ^ 2 ≤ 17 ^ 2
        · rw [if_pos hd] at h; exact Or.inl h
        · rw [if_neg hd] at h; exact Or.inr (h ▸ List.mem_cons_self w rest)
      · rcases ih (x + 1) v h with h0 | hm
        · exact Or.inl h0
        · exact Or.inr (List.mem_cons_of_mem w hm)

theorem suppressGo_mem (cx cy : ℤ) (m : ScoreMap) : ∀ (y : ℤ),
    ∀ row2 ∈ suppressGo cx cy y m, ∀ v ∈ row2, v = 0 ∨ ∃ row ∈ m, v ∈ row := by
  induction m with
  | nil => intro y row2 h2; exact absurd h2 (List.not_mem_nil row2)
  | cons row rest ih =>
      intro y row2 h2 v hv
      rw [suppressGo] at h2
      rcases List.mem_cons.mp h2 with h | h
      · rcases suppressRow_mem cx cy y row 0 v (h ▸ hv) with h0 | hm
        · exact Or.inl h0
        · exact Or.inr ⟨row, List.mem_cons_self row rest, hm⟩
      · rcases ih (y + 1) row2 h v hv with h0 | ⟨r, hr, hvr⟩
        · exact Or.inl h0
        · exact Or.inr ⟨r, List.mem_cons_of_mem row hr, hvr⟩

theorem suppress_lt (c : ℚ) (m : ScoreMap) (cx cy : ℤ) (hc : 0 < c)
    (hm : ∀ row ∈ m, ∀ v ∈ row, v < c) :
    ∀ row2 ∈ suppress m cx cy, ∀ v ∈ row2, v < c := by
  intro row2 h2 v hv
  rcases suppressGo_mem cx cy m 0 row2 h2 v hv with h0 | ⟨r, hr, hvr⟩
  · exact h0 ▸ hc
  · exact hm r hr v hvr

theorem matchLoop_length (imgCols imgRows templCols templRows : ℤ) (minScore : ℚ) :
    ∀ (n : ℕ) (m : ScoreMap) (acc : List MatchItem),
      (matchLoop imgCols imgRows templCols templRows minScore n m acc).length ≤
        acc.length + n := by
  intro n
  induction n with
  | zero => intro m acc; rw [matchLoop]; omega
  | succ k ih =>
      intro m acc
      rw [matchLoop]
      by_cases hb : 0 < (scanMax m).2.1 ∧ 0 < (scanMax m).2.2 ∧
          (scanMax m).2.1 < imgCols - 1 ∧ (scanMax m).2.2 < imgRows - 1
      · rw [if_pos hb]
        by_cases hs : minScore ≤ (scanMax m).1
        · rw [if_pos hs]
          have := ih (suppress m (scanMax m).2.1 (scanMax m).2.2)
            (acc ++ [⟨⟨((scanMax m).2.1 : ℚ) + (templCols : ℚ) / 2,
                      ((scanMax m).2.2 : ℚ) + (templRows : ℚ) / 2⟩, (scanMax m).1⟩])
          simp only [List.length_append, List.length_cons, List.length_nil] at this
          omega
        · rw [if_neg hs]; omega
      · rw [if_neg hb]
        have := ih (suppress m (scanMax m).2.1 (scanMax m).2.2) acc
        omega

theorem matchLoop_scores (imgCols imgRows templCols templRows : ℤ) (minScore : ℚ) :
    ∀ (n : ℕ) (m : ScoreMap) (acc : List MatchItem),
      ∀ it ∈ matchLoop imgCols imgRows templCols templRows minScore n m acc,
        it ∈ acc ∨ minScore ≤ it.score := by
  intro n
  induction n with
  | zero => intro m acc it hit; rw [matchLoop] at hit; exact Or.inl hit
  | succ k ih =>
      intro m acc it hit
      rw [matchLoop] at hit
      by_cases hb : 0 < (scanMax m).2.1 ∧ 0 < (scanMax m).2.2 ∧
          (scanMax m).2.1 < imgCols - 1 ∧ (scanMax m).2.2 < imgRows - 1
      · rw [if_pos hb] at hit
        by_cases hs : minScore ≤ (scanMax m).1
        · rw [if_pos hs] at hit
          rcases ih _ _ it hit with hmem | hsc
          · rcases List.mem_append.mp hmem with h | h
            · exact Or.inl h
            · right
              have : it = (⟨⟨((scanMax m).2.1 : ℚ) + (templCols : ℚ) / 2,
                  ((scanMax m).2.2 : ℚ) + (templRows : ℚ) / 2⟩, (scanMax m).1⟩ : MatchItem) :=
                List.eq_of_mem_singleton h
              rw [this]
              exact hs
          · exact Or.inr hsc
        · rw [if_neg hs] at hit; exact Or.inl hit
      · rw [if_neg hb] at hit
        exact ih _ _ it hit

theorem matchLoop_below (imgCols imgRows templCols templRows : ℤ) (minScore : ℚ)
    (hms : 1/20 ≤ minScore) :
    ∀ (n : ℕ) (m : ScoreMap) (acc : List MatchItem),
      (∀ row ∈ m, ∀ v ∈ row, v < minScore) →
      matchLoop imgCols imgRows templCols templRows minScore n m acc = acc := by
  have h0 : (0 : ℚ) < minScore := lt_of_lt_of_le (by norm_num) hms
  have hinit : -(2 ^ 1024 : ℚ) < minScore := lt_of_lt_of_le (by norm_num) hms
  intro n
  induction n with
  | zero => intro m acc _; rw [matchLoop]
  | succ k ih =>
      intro m acc hm
      rw [matchLoop]
      have hlt : (scanMax m).1 < minScore := scanMax_lt minScore m hinit hm
      by_cases hb : 0 < (scanMax m).2.1 ∧ 0 < (scanMax m).2.2 ∧
          (scanMax m).2.1 < imgCols - 1 ∧ (scanMax m).2.2 < imgRows - 1
      · rw [if_pos hb, if_neg (not_le.mpr hlt)]
      · rw [if_neg hb]
        exact ih _ _ (suppress_lt minScore m _ _ h0 hm)

/-! ## The search-line generation loop, characterised -/

theorem swathLines_length (xb yi : ℚ) : ∀ (n : ℕ) (pT pB : Pt),
    (swathLines pT pB xb yi n).length = n := by
  intro n
  induction n with
  | zero => intro pT pB; rw [swathLines]; rfl
  | succ k ih => intro pT pB; rw [swathLines, List.length_cons, ih]

theorem swathLines_getD (xb yi : ℚ) : ∀ (n i : ℕ), i < n → ∀ (pT pB : Pt),
    (swathLines pT pB xb yi n).getD i default =
      ⟨⟨cvRound (pT.x + (i : ℚ)), cvRound (pT.y + (i : ℚ) * yi)⟩,
       ⟨cvRound (pB.x + (i : ℚ) * xb), cvRound (pB.y + (i : ℚ) * yi)⟩⟩ := by
  intro n
  induction n with
  | zero => intro i hi; omega
  | succ k ih =>
      intro i hi pT pB
      rw [swathLines]
      cases i with
      | zero =>
          rw [List.getD_cons_zero]
          simp only [LineEnds.mk.injEq, PtI.mk.injEq, Nat.cast_zero]
          refine ⟨⟨?_, ?_⟩, ?_, ?_⟩ <;> · apply congrArg; ring
      | succ j =>
          rw [List.getD_cons_succ, ih j (by omega)]
          simp only [LineEnds.mk.injEq, PtI.mk.injEq, Nat.cast_succ]
          refine ⟨⟨?_, ?_⟩, ?_, ?_⟩ <;> · apply congrArg; ring

/-! ## Structure of the SortPoints grid -/

theorem map_getD_range_eq_drop_take {α : Type} (d : α) (C : ℕ) (l : List α) (s : ℕ)
    (h : s + C ≤ l.length) :
    (List.range C).map (fun j => l.getD (s + j) d) = (l.drop s).take C := by
  apply List.ext_getElem
  · simp only [List.length_map, List.length_range, List.length_take, List.length_drop]
    omega
  · intro n h1 h2
    rw [List.getElem_map, List.getElem_range]
    rw [List.getElem_take, List.getElem_drop]
    exact List.getD_eq_getElem l d (by simp only [List.length_map, List.length_range] at h1; omega)

theorem getD_drop {α : Type} (d : α) (l : List α) (C k : ℕ) :
    l.getD (C + k) d = (l.drop C).getD k d := by
  rw [List.getD_eq_getElem?_getD, List.getD_eq_getElem?_getD, List.getElem?_drop]

/-- Flattening the raw (pre-x-sort) rows of the SortPoints grid recovers the
y-sorted list itself. -/
theorem flatten_rows_eq {α : Type} (d : α) (C : ℕ) :
    ∀ (R : ℕ) (l : List α), l.length = R * C →
      ((List.range R).map (fun i => (List.range C).map (fun j => l.getD (i * C + j) d))).flatten
        = l := by
  intro R
  induction R with
  | zero =>
      intro l hl
      have hnil : l = [] := List.eq_nil_of_length_eq_zero (by omega)
      subst hnil
      rfl
  | succ k ih =>
      intro l hl
      have hl' : l.length = k * C + C := by rw [hl]; ring
      rw [List.range_succ_eq_map, List.map_cons, List.map_map, List.flatten_cons]
      have hfirst : (List.range C).map (fun j => l.getD (0 * C + j) d) = l.take C := by
        have h0 := map_getD_range_eq_drop_take d C l 0 (by omega)
        simpa using h0
      have hrest :
          ((List.range k).map ((fun i => (List.range C).map fun j => l.getD (i * C + j) d) ∘
            Nat.succ)).flatten = l.drop C := by
        have hcongr : ((fun i => (List.range C).map fun j => l.getD (i * C + j) d) ∘ Nat.succ) =
            (fun i => (List.range C).map fun j => (l.drop C).getD (i * C + j) d) := by
          funext i
          simp only [Function.comp]
          apply List.map_congr_left
          intro j _
          have harith : Nat.succ i * C + j = C + (i * C + j) := by
            simp only [Nat.succ_eq_add_one]
            ring
          rw [harith, getD_drop]
        rw [hcongr]
        exact ih (l.drop C) (by simp only [List.length_drop]; omega)
      rw [hfirst, hrest]
      exact List.take_append_drop C l

theorem flatten_map_insertionSort_perm {α : Type} (r : α → α → Prop) [DecidableRel r]
    (f : ℕ → List α) : ∀ idxs : List ℕ,
    ((idxs.map fun i => List.insertionSort r (f i)).flatten).Perm ((idxs.map f).flatten) := by
  intro idxs
  induction idxs with
  | nil => exact List.Perm.refl _
  | cons i rest ih =>
      rw [List.map_cons, List.map_cons, List.flatten_cons, List.flatten_cons]
      exact (List.perm_insertionSort r (f i)).append ih

/-- The flattened SortPoints grid is a permutation of the y-sorted list it
was chunked from. -/
theorem gridRows_flatten_perm (R C : ℕ) (l : List MatchItem) (hlen : l.length = R * C) :
    ((gridRows R C l).flatten).Perm l := by
  unfold gridRows
  have h1 := flatten_map_insertionSort_perm ptXLe
    (fun i => (List.range C).map (fun j => l.getD (i * C + j) default)) (List.range R)
  have h2 := flatten_rows_eq (default : MatchItem) C R l hlen
  rw [h2] at h1
  exact h1

/-- Entries of distinct rows of the SortPoints grid respect the y-order of
the underlying y-sorted list. -/
theorem gridRows_cross (C : ℕ) (l : List MatchItem) (R : ℕ) (hlen : l.length = R * C)
    (hsort : List.Sorted ptYLe l) :
    ∀ i j : ℕ, i < j → j < R →
      ∀ a ∈ (gridRows R C l).getD i [], ∀ b ∈ (gridRows R C l).getD j [],
        a.pt.y ≤ b.pt.y := by
  intro i j hij hjR a ha b hb
  have hiR : i < R := by omega
  have hgi : (gridRows R C l).getD i [] =
      List.insertionSort ptXLe ((List.range C).map (fun k => l.getD (i * C + k) default)) := by
    unfold gridRows
    rw [List.getD_eq_getElem _ _ (by simp only [List.length_map, List.length_range]; omega),
        List.getElem_map, List.getElem_range]
  have hgj : (gridRows R C l).getD j [] =
      List.insertionSort ptXLe ((List.range C).map (fun k => l.getD (j * C + k) default)) := by
    unfold gridRows
    rw [List.getD_eq_getElem _ _ (by simp only [List.length_map, List.length_range]; omega),
        List.getElem_map, List.getElem_range]
  rw [hgi] at ha
  rw [hgj] at hb
  have ha2 : a ∈ (List.range C).map (fun k => l.getD (i * C + k) default) :=
    (List.mem_insertionSort ptXLe).mp ha
  have hb2 : b ∈ (List.range C).map (fun k => l.getD (j * C + k) default) :=
    (List.mem_insertionSort ptXLe).mp hb
  obtain ⟨ka, hka, hae⟩ := List.mem_map.mp ha2
  obtain ⟨kb, hkb, hbe⟩ := List.mem_map.mp hb2
  rw [List.mem_range] at hka hkb
  have hia : i * C + ka < R * C := by
    calc i * C + ka < i * C + C := by omega
      _ = (i + 1) * C := by ring
      _ ≤ R * C := Nat.mul_le_mul_right C (by omega)
  have hjb : j * C + kb < R * C := by
    calc j * C + kb < j * C + C := by omega
      _ = (j + 1) * C := by ring
      _ ≤ R * C := Nat.mul_le_mul_right C (by omega)
  have hlt : i * C + ka < j * C + kb := by
    calc i * C + ka < i * C + C := by omega
      _ = (i + 1) * C := by ring
      _ ≤ j * C := Nat.mul_le_mul_right C (by omega)
      _ ≤ j * C + kb := Nat.le_add_right _ _
  rw [List.getD_eq_getElem l default (by omega)] at hae
  rw [List.getD_eq_getElem l default (by omega)] at hbe
  have hrel := List.pairwise_iff_getElem.mp hsort (i * C + ka) (j * C + kb)
    (by omega) (by omega) hlt
  rw [hae, hbe] at hrel
  exact hrel

/-! ## Claim theorems -/

/-- C1: a Calibrate call whose argument lists have different lengths, or are
empty, or whose grid size does not multiply out to the point count, or whose
grid width is nonpositive, returns the validation error GC_ERR and leaves
the whole stored calibration state (model, image size, homographies)
untouched. -/
theorem claimC1_calibrate_validation (bowtieDim : ℤ) (fPW fWP : Except Unit Bool)
    (st : CalibState) (pixelPts worldPts : List Pt) (gridSize imgSize : SizeI)
    (h : pixelPts.length ≠ worldPts.length ∨ pixelPts = [] ∨ worldPts = [] ∨
         gridSize.width * gridSize.height ≠ (pixelPts.length : ℤ) ∨ gridSize.width ≤ 0) :
    calibrate bowtieDim fPW fWP st pixelPts worldPts gridSize imgSize = (GC_ERR, st) := by
  unfold calibrate
  rw [if_pos h]

/-- Witness for C1: a concrete call with mismatched point counts. -/
theorem claimC1_witness :
    (([⟨0, 0⟩] : List Pt).length ≠ ([] : List Pt).length ∨ ([⟨0, 0⟩] : List Pt) = [] ∨
      ([] : List Pt) = [] ∨ (⟨1, 1⟩ : SizeI).width * (⟨1, 1⟩ : SizeI).height ≠
        (([⟨0, 0⟩] : List Pt).length : ℤ) ∨ (⟨1, 1⟩ : SizeI).width ≤ 0) ∧
    calibrate 40 (Except.ok true) (Except.ok true) emptyCalibState
      [⟨0, 0⟩] [] ⟨1, 1⟩ ⟨10, 10⟩ = (GC_ERR, emptyCalibState) :=
  ⟨Or.inl (by decide),
   claimC1_calibrate_validation 40 (Except.ok true) (Except.ok true) emptyCalibState
     [⟨0, 0⟩] [] ⟨1, 1⟩ ⟨10, 10⟩ (Or.inl (by decide))⟩

/-- C2 counterexample: SetMoveTargetROI with an out-of-bounds rectangle
returns GC_ERR yet stores the rectangle, so the claim that a failing
operation leaves its target state unmutated is false. -/
theorem claimC2_counterexample :
    (setMoveTargetROI MoveROIs.initial 100 100 ⟨-1, 0, 5, 5⟩ true).1 = GC_ERR ∧
    (setMoveTargetROI MoveROIs.initial 100 100 ⟨-1, 0, 5, 5⟩ true).2.rectLeftMoveSearch =
      ⟨-1, 0, 5, 5⟩ ∧
    ¬ failureLeavesMoveROIsUnchanged := by
  refine ⟨by decide, by decide, fun h => ?_⟩
  have h2 := h MoveROIs.initial 100 100 ⟨-1, 0, 5, 5⟩ true (by decide)
  exact absurd (congrArg MoveROIs.rectLeftMoveSearch h2) (by decide)

/-- C2 amended: Calibrate's argument-validation failure does leave state
unchanged, but SetMoveTargetROI commits the rectangle even when its bounds
check fails (it reports GC_ERR exactly on out-of-bounds rectangles, and
stores the rectangle in every case), and a homography-fit exception inside
Calibrate surfaces as GC_EXCEPT only after the model has already been
cleared and repopulated with the new points (partial mutation: the new
points are in, the search lines are gone). -/
theorem claimC2_amended :
    (∀ (g : MoveROIs) (imgCols imgRows : ℤ) (rect : RectI) (isLeft : Bool),
        (setMoveTargetROI g imgCols imgRows rect isLeft).2 =
          (if isLeft then { g with rectLeftMoveSearch := rect }
           else { g with rectRightMoveSearch := rect }) ∧
        ((setMoveTargetROI g imgCols imgRows rect isLeft).1 = GC_ERR ↔
          rect.x < 0 ∨ rect.y < 0 ∨ rect.x + rect.width > imgCols ∨
            rect.y + rect.height > imgRows)) ∧
    (∀ (bowtieDim : ℤ) (fPW fWP : Except Unit Bool) (st : CalibState)
        (pixelPts worldPts : List Pt) (gridSize imgSize : SizeI),
        (pixelPts.length ≠ worldPts.length ∨ pixelPts = [] ∨ worldPts = [] ∨
         gridSize.width * gridSize.height ≠ (pixelPts.length : ℤ) ∨ gridSize.width ≤ 0) →
        calibrate bowtieDim fPW fWP st pixelPts worldPts gridSize imgSize = (GC_ERR, st)) ∧
    (∀ (bowtieDim : ℤ) (fWP : Except Unit Bool) (st : CalibState)
        (pixelPts worldPts : List Pt) (gridSize imgSize : SizeI),
        ¬(pixelPts.length ≠ worldPts.length ∨ pixelPts = [] ∨ worldPts = [] ∨
          gridSize.width * gridSize.height ≠ (pixelPts.length : ℤ) ∨ gridSize.width ≤ 0) →
        (calibrate bowtieDim (Except.error ()) fWP st pixelPts worldPts gridSize imgSize).1 =
          GC_EXCEPT ∧
        (calibrate bowtieDim (Except.error ()) fWP st pixelPts worldPts gridSize
            imgSize).2.model.pixelPoints = pixelPts ∧
        (calibrate bowtieDim (Except.error ()) fWP st pixelPts worldPts gridSize
            imgSize).2.model.searchLines = []) := by
  refine ⟨fun g imgCols imgRows rect isLeft => ⟨rfl, ?_⟩, fun _ _ _ st _ _ _ _ h => ?_,
          fun bowtieDim fWP st pixelPts worldPts gridSize imgSize h => ?_⟩
  · unfold setMoveTargetROI
    by_cases hc : rect.x < 0 ∨ rect.y < 0 ∨ rect.x + rect.width > imgCols ∨
        rect.y + rect.height > imgRows
    · simp [hc]
    · simp [hc]
  · unfold calibrate
    rw [if_pos h]
  · unfold calibrate
    rw [if_neg h]
    exact ⟨rfl, rfl, rfl⟩

/-- Witness for C2 amended: a concrete out-of-bounds SetMoveTargetROI call
and a concrete Calibrate run whose homography fit throws. -/
theorem claimC2_amended_witness :
    ((setMoveTargetROI MoveROIs.initial 100 100 ⟨-1, 0, 5, 5⟩ true).2 =
        { MoveROIs.initial with rectLeftMoveSearch := ⟨-1, 0, 5, 5⟩ }) ∧
    (¬((([⟨0, 0⟩] : List Pt)).length ≠ ([⟨2, 3⟩] : List Pt).length ∨
        ([⟨0, 0⟩] : List Pt) = [] ∨ ([⟨2, 3⟩] : List Pt) = [] ∨
        (⟨1, 1⟩ : SizeI).width * (⟨1, 1⟩ : SizeI).height ≠
          ((([⟨0, 0⟩] : List Pt)).length : ℤ) ∨ (⟨1, 1⟩ : SizeI).width ≤ 0)) ∧
    (calibrate 40 (Except.error ()) (Except.ok true) emptyCalibState
        [⟨0, 0⟩] [⟨2, 3⟩] ⟨1, 1⟩ ⟨10, 10⟩).1 = GC_EXCEPT ∧
    (calibrate 40 (Except.error ()) (Except.ok true) emptyCalibState
        [⟨0, 0⟩] [⟨2, 3⟩] ⟨1, 1⟩ ⟨10, 10⟩).2.model.pixelPoints = [⟨0, 0⟩] :=
  ⟨(claimC2_amended.1 MoveROIs.initial 100 100 ⟨-1, 0, 5, 5⟩ true).1,
   by decide,
   (claimC2_amended.2.2 40 (Except.ok true) emptyCalibState [⟨0, 0⟩] [⟨2, 3⟩]
      ⟨1, 1⟩ ⟨10, 10⟩ (by decide)).1,
   (claimC2_amended.2.2 40 (Except.ok true) emptyCalibState [⟨0, 0⟩] [⟨2, 3⟩]
      ⟨1, 1⟩ ⟨10, 10⟩ (by decide)).2.1⟩

/-- C9 counterexample: on a model with an empty pixel-point array (invalid),
MoveSearchROI hands back exactly the stored rectangle ⟨3,4,5,6⟩ — it neither
fails nor returns a sentinel, refuting the half of the claim that covers
MoveSearchROI. -/
theorem claimC9_counterexample :
    M9.model.pixelPoints = [] ∧
    moveSearchROI M9 true = ⟨3, 4, 5, 6⟩ ∧
    M9.model.moveSearchRegionLft = ⟨3, 4, 5, 6⟩ ∧
    ¬ roiAccessorRejectsInvalid := by
  refine ⟨rfl, rfl, rfl, fun h => ?_⟩
  exact h M9 true (Or.inl rfl) rfl

/-- C9 amended: MoveSearchROI returns the stored rectangle unconditionally
(no validity check, no sentinel); MoveRefPoint behaves as the claim says:
it returns the sentinel point (DBL_MIN, DBL_MIN) when the pixel-point array
is empty or its length differs from gridSize.width*gridSize.height, and on
a valid model returns the first (left) or (gridSize.width-1)-th (right)
pixel point. -/
theorem claimC9_amended :
    (∀ (st : CalibState) (isLeft : Bool),
        moveSearchROI st isLeft =
          if isLeft then st.model.moveSearchRegionLft else st.model.moveSearchRegionRgt) ∧
    (∀ (st : CalibState) (isLeft : Bool), invalidModel st →
        moveRefPoint st isLeft = ⟨dblMin, dblMin⟩) ∧
    (∀ (st : CalibState) (isLeft : Bool), ¬ invalidModel st →
        moveRefPoint st isLeft =
          if isLeft then ptAt st.model.pixelPoints 0
          else ptAt st.model.pixelPoints (st.model.gridSize.width - 1)) := by
  refine ⟨fun st isLeft => rfl, fun st isLeft h => ?_, fun st isLeft h => ?_⟩
  · unfold moveRefPoint
    rcases h with h | h
    · rw [if_pos h]
    · by_cases he : st.model.pixelPoints = []
      · rw [if_pos he]
      · rw [if_neg he, if_pos h]
  · unfold invalidModel at h
    rw [not_or] at h
    unfold moveRefPoint
    rw [if_neg h.1, if_neg h.2]

/-- Witness for C9 amended: the sentinel on the invalid state M9, the real
grid points on the valid state MV. -/
theorem claimC9_amended_witness :
    invalidModel M9 ∧ moveRefPoint M9 true = ⟨dblMin, dblMin⟩ ∧
    ¬ invalidModel MV ∧
    moveRefPoint MV false =
      (if false then ptAt MV.model.pixelPoints 0
       else ptAt MV.model.pixelPoints (MV.model.gridSize.width - 1)) :=
  ⟨Or.inl rfl,
   claimC9_amended.2.1 M9 true (Or.inl rfl),
   by decide,
   claimC9_amended.2.2 MV false (by decide)⟩

/-- C5: FindMoveTargets searches only inside the two configured move-search
rectangles (its scratch image equals the input inside either rectangle and
is zero elsewhere), returns GC_ERR whenever the candidate count differs
from exactly 2, and on success returns the two candidate points with the
left point's x-coordinate at most the right one's, whichever order they
were discovered in. -/
theorem claimC5_findMoveTargets :
    (∀ (img : Img) (rl rr : RectI) (x y : ℤ),
        scratchImage img rl rr x y =
          if inRectB rl x y ∨ inRectB rr x y then img x y else 0) ∧
    (∀ items : List MatchItem, items.length ≠ 2 →
        findMoveTargetsFrom items = (GC_ERR, none)) ∧
    (∀ (items : List MatchItem) (a b : Pt),
        findMoveTargetsFrom items = (GC_OK, some (a, b)) →
        a.x ≤ b.x ∧
        ((a = (items.getD 0 default).pt ∧ b = (items.getD 1 default).pt) ∨
         (a = (items.getD 1 default).pt ∧ b = (items.getD 0 default).pt))) := by
  refine ⟨fun img rl rr x y => ?_, fun items h => ?_, fun items a b h => ?_⟩
  · unfold scratchImage copyRegion
    cases hr : inRectB rr x y <;> cases hl : inRectB rl x y <;> simp [hr, hl]
  · unfold findMoveTargetsFrom
    rw [if_pos h]
  · unfold findMoveTargetsFrom at h
    by_cases hl : items.length = 2
    · rw [if_neg (by rw [hl]; exact fun hc => hc rfl)] at h
      by_cases hx : (items.getD 0 default).pt.x < (items.getD 1 default).pt.x
      · rw [if_pos hx] at h
        simp only [Prod.mk.injEq, Option.some.injEq, true_and] at h
        obtain ⟨rfl, rfl⟩ := h
        exact ⟨le_of_lt hx, Or.inl ⟨rfl, rfl⟩⟩
      · rw [if_neg hx] at h
        simp only [Prod.mk.injEq, Option.some.injEq, true_and] at h
        obtain ⟨rfl, rfl⟩ := h
        exact ⟨le_of_not_lt hx, Or.inr ⟨rfl, rfl⟩⟩
    · rw [if_pos hl] at h
      exact absurd h (by simp)

/-- C10: SubpixelPointRefine returns an error exactly when the discrete peak
lies within 1 pixel of the score-map border or the map is not CV_32FC1;
on success the returned point is the intensity-weighted centroid of the 3x3
neighborhood of the peak, and every cell the loop touches lies strictly
inside the map bounds. -/
theorem claimC10_subpixel (m : MatchSpace) (p : PtI) :
    ((subpixelPointRefine m p).1 = GC_ERR ↔
      (p.x < 1 ∨ p.y < 1 ∨ m.cols - 2 < p.x ∨ m.rows - 2 < p.y ∨ m.is32FC1 = false)) ∧
    ((subpixelPointRefine m p).1 = GC_OK →
      (subpixelPointRefine m p).2 = some (centroid3x3 m p) ∧
      ∀ i j : ℤ, p.x - 1 ≤ i → i ≤ p.x + 1 → p.y - 1 ≤ j → j ≤ p.y + 1 →
        0 ≤ i ∧ i < m.cols ∧ 0 ≤ j ∧ j < m.rows) := by
  unfold subpixelPointRefine
  by_cases hb : p.x < 1 ∨ p.y < 1 ∨ m.cols - 2 < p.x ∨ m.rows - 2 < p.y
  · rw [if_pos hb]
    refine ⟨⟨fun _ => ?_, fun _ => rfl⟩, fun hok => absurd hok (by simp)⟩
    rcases hb with h | h | h | h
    · exact Or.inl h
    · exact Or.inr (Or.inl h)
    · exact Or.inr (Or.inr (Or.inl h))
    · exact Or.inr (Or.inr (Or.inr (Or.inl h)))
  · rw [if_neg hb]
    by_cases ht : m.is32FC1 = false
    · rw [if_pos ht]
      exact ⟨⟨fun _ => Or.inr (Or.inr (Or.inr (Or.inr ht))), fun _ => rfl⟩,
             fun hok => absurd hok (by simp)⟩
    · rw [if_neg ht]
      push_neg at hb
      refine ⟨⟨fun habs => absurd habs (by simp), fun hc => ?_⟩, fun _ => ⟨?_, ?_⟩⟩
      · rcases hc with h | h | h | h | h
        · omega
        · omega
        · omega
        · omega
        · exact absurd h ht
      · rw [sumNeighborhood_eq]
        rfl
      · intro i j hi1 hi2 hj1 hj2
        refine ⟨by omega, by omega, by omega, by omega⟩

/-- Witness for C10: a concrete 3x3 score map with an interior peak. -/
theorem claimC10_witness :
    (subpixelPointRefine
        ⟨[[1/10, 1/10, 1/10], [1/10, 9/10, 1/10], [1/10, 1/10, 2/10]], true⟩ ⟨1, 1⟩).1 =
      GC_OK ∧
    (subpixelPointRefine
        ⟨[[1/10, 1/10, 1/10], [1/10, 9/10, 1/10], [1/10, 1/10, 2/10]], true⟩ ⟨1, 1⟩).2 =
      some (centroid3x3
        ⟨[[1/10, 1/10, 1/10], [1/10, 9/10, 1/10], [1/10, 1/10, 2/10]], true⟩ ⟨1, 1⟩) :=
  ⟨rfl,
   ((claimC10_subpixel
      ⟨[[1/10, 1/10, 1/10], [1/10, 9/10, 1/10], [1/10, 1/10, 2/10]], true⟩ ⟨1, 1⟩).2 rfl).1⟩

/-- SubpixelPointRefine produces either (GC_ERR, none) or (GC_OK, some pt). -/
theorem subpixel_cases (m : MatchSpace) (p : PtI) :
    subpixelPointRefine m p = (GC_ERR, none) ∨
      ∃ pt, subpixelPointRefine m p = (GC_OK, some pt) := by
  unfold subpixelPointRefine
  split_ifs
  · exact Or.inl rfl
  · exact Or.inl rfl
  · exact Or.inr ⟨_, rfl⟩

/-- C8: a MatchRefine call that returns GC_OK never lowers the item's score;
it replaces the item's score and position (score = the window's peak score,
position = the window origin plus the subpixel-refined peak plus half a
template) exactly when the window's peak correlation strictly exceeds the
item's current score, and leaves the item bit-for-bit unchanged otherwise. -/
theorem claimC8_matchRefine (templateCount index imgCols imgRows templCols templRows : ℤ)
    (minScore : ℚ) (numToFind : ℤ) (item : MatchItem) (smallMap : ScoreMap)
    (h : (matchRefine templateCount index imgCols imgRows templCols templRows minScore
            numToFind item smallMap).1 = GC_OK) :
    item.score ≤ (matchRefine templateCount index imgCols imgRows templCols templRows
        minScore numToFind item smallMap).2.score ∧
    (item.score < (scanMax smallMap).1 →
      ∃ pf, subpixelPointRefine ⟨smallMap, true⟩
              ⟨(scanMax smallMap).2.1, (scanMax smallMap).2.2⟩ = (GC_OK, some pf) ∧
        (matchRefine templateCount index imgCols imgRows templCols templRows minScore
            numToFind item smallMap).2 =
          ⟨⟨(refineRectX imgCols templCols item.pt.x : ℚ) + pf.x + (templCols : ℚ) / 2,
            (refineRectY imgRows templRows item.pt.y : ℚ) + pf.y + (templRows : ℚ) / 2⟩,
           (scanMax smallMap).1⟩) ∧
    (¬ item.score < (scanMax smallMap).1 →
      (matchRefine templateCount index imgCols imgRows templCols templRows minScore
          numToFind item smallMap).2 = item) := by
  unfold matchRefine at h ⊢
  by_cases h1 : index < 0 ∨ templateCount ≤ index
  · rw [if_pos h1] at h
    exact absurd h (by simp)
  · rw [if_neg h1] at h ⊢
    by_cases h2 : minScore < 1/20 ∨ 1 < minScore
    · rw [if_pos h2] at h
      exact absurd h (by simp)
    · rw [if_neg h2] at h ⊢
      by_cases h3 : numToFind < 1 ∨ 1000 < numToFind
      · rw [if_pos h3] at h
        exact absurd h (by simp)
      · rw [if_neg h3] at h ⊢
        by_cases hlt : item.score < (scanMax smallMap).1
        · rw [if_pos hlt] at h ⊢
          rcases subpixel_cases ⟨smallMap, true⟩
              ⟨(scanMax smallMap).2.1, (scanMax smallMap).2.2⟩ with hsp | ⟨pf, hsp⟩
          · rw [hsp] at h
            exact absurd h (by simp)
          · rw [hsp] at h ⊢
            exact ⟨le_of_lt hlt, fun _ => ⟨pf, rfl, rfl⟩, fun hc => absurd hlt hc⟩
        · rw [if_neg hlt] at h ⊢
          exact ⟨le_refl _, fun hc => absurd hc hlt, fun _ => rfl⟩

/-- A concrete 3x3 refinement-window score map with its peak at the
centre. -/
def SM8 : ScoreMap := [[1/10, 1/10, 1/10], [1/10, 9/10, 1/10], [1/10, 1/10, 2/10]]

/-- Witness for C8: a concrete refinement where the window peak (9/10) beats
the item's prior score (3/10), so the call succeeds and the score does not
decrease. -/
theorem claimC8_witness :
    (matchRefine 15 7 100 100 20 20 (1/2) 1 ⟨⟨50, 50⟩, 3/10⟩ SM8).1 = GC_OK ∧
    ((⟨⟨50, 50⟩, 3/10⟩ : MatchItem)).score ≤
      (matchRefine 15 7 100 100 20 20 (1/2) 1 ⟨⟨50, 50⟩, 3/10⟩ SM8).2.score := by
  have hs : scanMax SM8 = (9/10, 1, 1) := by norm_num [scanMax, mapMax, rowMax, SM8]
  have hsp : subpixelPointRefine ⟨SM8, true⟩ ⟨1, 1⟩ = (GC_OK, some ⟨19/18, 19/18⟩) := by
    simp [subpixelPointRefine, sumNeighborhood, MatchSpace.val, MatchSpace.cols,
      MatchSpace.rows, SM8]
    norm_num
  have hOK : (matchRefine 15 7 100 100 20 20 (1/2) 1 ⟨⟨50, 50⟩, 3/10⟩ SM8).1 = GC_OK := by
    simp only [matchRefine, hs]
    rw [if_neg (by norm_num), if_neg (by norm_num), if_neg (by norm_num),
        if_pos (by norm_num)]
    rw [hsp]
  exact ⟨hOK, (claimC8_matchRefine 15 7 100 100 20 20 (1/2) 1 ⟨⟨50, 50⟩, 3/10⟩ SM8 hOK).1⟩

/-- Spec claim (C4): MatchTemplate records a global maximum only when it is
strictly inside the image bounds with score at least minScore, and stops
otherwise — so whenever the very first global maximum of the correlation
map fails that test, the extraction ends with nothing recorded and the call
reports the no-match error with an empty candidate list. -/
def matchStopSpec : Prop :=
  ∀ (templateCount index imgCols imgRows templCols templRows : ℤ) (minScore : ℚ)
    (numToFind : ℤ) (corrMap : ScoreMap) (prevItems : List MatchItem),
    ¬(index < 0 ∨ templateCount ≤ index) →
    ¬(minScore < 1/20 ∨ 1 < minScore) →
    ¬(numToFind < 1 ∨ 1000 < numToFind) →
    ¬(0 < (scanMax corrMap).2.1 ∧ 0 < (scanMax corrMap).2.2 ∧
      (scanMax corrMap).2.1 < imgCols - 1 ∧ (scanMax corrMap).2.2 < imgRows - 1 ∧
      minScore ≤ (scanMax corrMap).1) →
    matchTemplate templateCount index imgCols imgRows templCols templRows minScore
      numToFind corrMap prevItems = (GC_ERR, [])

/-- The 19x2 correlation map of the C4 counterexample: a 0.9 peak at (0, 0)
(on the x = 0 border, hence out of bounds for the recording test) and a 0.8
peak at (18, 1), more than the suppression radius 17 away. -/
def map4 : ScoreMap :=
  [[9/10, 0, 0, 0, 0, 0, 0, 0, 0, 0, 0, 0, 0, 0, 0, 0, 0, 0, 0],
   [0, 0, 0, 0, 0, 0, 0, 0, 0, 0, 0, 0, 0, 0, 0, 0, 0, 0, 8/10]]

/-- The map `map4` after the radius-17 disk around (0,0) is zeroed: only the (18,1)
peak survives. -/
def map4s : ScoreMap :=
  [[0, 0, 0, 0, 0, 0, 0, 0, 0, 0, 0, 0, 0, 0, 0, 0, 0, 0, 0],
   [0, 0, 0, 0, 0, 0, 0, 0, 0, 0, 0, 0, 0, 0, 0, 0, 0, 0, 8/10]]

/-- C4 counterexample: on `map4` (search image 38x21, template 20x20) the
first global maximum sits on the x = 0 border, yet MatchTemplate does not
stop: it suppresses the disk around it, finds the in-bounds 0.8 peak on the
next iteration, and returns GC_OK with that one candidate — refuting the
claim's "stopping otherwise". -/
theorem claimC4_counterexample :
    matchTemplate 15 7 38 21 20 20 (1/2) 2 map4 [] = (GC_OK, [⟨⟨28, 11⟩, 8/10⟩]) ∧
    ¬ (0 < (scanMax map4).2.1) ∧
    ¬ matchStopSpec := by
  have h1 : scanMax map4 = (9/10, 0, 0) := by
    norm_num [scanMax, mapMax, rowMax, map4]
  have h2 : suppress map4 0 0 = map4s := by
    norm_num [suppress, suppressGo, suppressRow, map4, map4s]
  have h3 : scanMax map4s = (8/10, 18, 1) := by
    norm_num [scanMax, mapMax, rowMax, map4s]
  have e1 : matchLoop 38 21 20 20 (1/2) 2 map4 [] = matchLoop 38 21 20 20 (1/2) 1 map4s [] := by
    show matchLoop 38 21 20 20 (1/2) (Nat.succ 1) map4 [] = _
    rw [matchLoop, h1]
    norm_num [h2]
  have e2 : matchLoop 38 21 20 20 (1/2) 1 map4s [] = [⟨⟨28, 11⟩, 8/10⟩] := by
    show matchLoop 38 21 20 20 (1/2) (Nat.succ 0) map4s [] = _
    rw [matchLoop, h3]
    norm_num [matchLoop]
  have ht : Int.toNat 2 = 2 := rfl
  have hmain : matchTemplate 15 7 38 21 20 20 (1/2) 2 map4 [] = (GC_OK, [⟨⟨28, 11⟩, 8/10⟩]) := by
    simp only [matchTemplate, ht, e1, e2]
    norm_num
  refine ⟨hmain, by rw [h1]; norm_num, fun h => ?_⟩
  have hstop := h 15 7 38 21 20 20 (1/2) 2 map4 [] (by norm_num) (by norm_num) (by norm_num)
    (by rw [h1]; norm_num)
  rw [hmain] at hstop
  simp at hstop

/-- C4 amended: for valid parameters, MatchTemplate extracts candidates by
repeatedly taking the global maximum of the correlation map; an in-bounds
maximum with score at least minScore is recorded and an in-bounds maximum
below minScore stops the extraction, but an out-of-bounds maximum is merely
skipped (suppressed, not recorded, without stopping).  It records at most
numToFind candidates, every recorded candidate's score is at least minScore,
it returns the no-match error GC_ERR exactly when the candidate list ends up
empty, and in particular when minScore exceeds every value of the
correlation map (no achievable score) it returns GC_ERR with no
candidates. -/
theorem claimC4_amended (templateCount index imgCols imgRows templCols templRows : ℤ)
    (minScore : ℚ) (numToFind : ℤ) (corrMap : ScoreMap) (prevItems : List MatchItem)
    (hidx : ¬(index < 0 ∨ templateCount ≤ index))
    (hms : ¬(minScore < 1/20 ∨ 1 < minScore))
    (hn : ¬(numToFind < 1 ∨ 1000 < numToFind)) :
    ((matchTemplate templateCount index imgCols imgRows templCols templRows minScore
        numToFind corrMap prevItems).1 = GC_ERR ↔
      (matchTemplate templateCount index imgCols imgRows templCols templRows minScore
        numToFind corrMap prevItems).2 = []) ∧
    (matchTemplate templateCount index imgCols imgRows templCols templRows minScore
        numToFind corrMap prevItems).2.length ≤ numToFind.toNat ∧
    (∀ it ∈ (matchTemplate templateCount index imgCols imgRows templCols templRows minScore
        numToFind corrMap prevItems).2, minScore ≤ it.score) ∧
    ((∀ row ∈ corrMap, ∀ v ∈ row, v < minScore) →
      matchTemplate templateCount index imgCols imgRows templCols templRows minScore
        numToFind corrMap prevItems = (GC_ERR, [])) := by
  unfold matchTemplate
  rw [if_neg hidx, if_neg hms, if_neg hn]
  by_cases he : matchLoop imgCols imgRows templCols templRows minScore
      numToFind.toNat corrMap [] = []
  · rw [if_pos he]
    refine ⟨⟨fun _ => he, fun _ => rfl⟩, ?_, ?_, fun hb => by rw [he]⟩
    · rw [he]; simp
    · intro it hit
      rw [he] at hit
      exact absurd hit (List.not_mem_nil it)
  · rw [if_neg he]
    refine ⟨⟨fun habs => absurd habs (by simp), fun hc => absurd hc he⟩, ?_, ?_, fun hb => ?_⟩
    · have := matchLoop_length imgCols imgRows templCols templRows minScore
        numToFind.toNat corrMap []
      simpa using this
    · intro it hit
      rcases matchLoop_scores imgCols imgRows templCols templRows minScore
          numToFind.toNat corrMap [] it hit with h | h
      · exact absurd h (List.not_mem_nil it)
      · exact h
    · exfalso
      rw [not_or, not_lt] at hms
      exact he (matchLoop_below imgCols imgRows templCols templRows minScore hms.1
        numToFind.toNat corrMap [] hb)

/-- Witness for C4 amended: the concrete run over `map4` with valid
parameters. -/
theorem claimC4_amended_witness :
    ¬((7 : ℤ) < 0 ∨ (15 : ℤ) ≤ 7) ∧ ¬((1/2 : ℚ) < 1/20 ∨ 1 < (1/2 : ℚ)) ∧
    ¬((2 : ℤ) < 1 ∨ 1000 < (2 : ℤ)) ∧
    (((matchTemplate 15 7 38 21 20 20 (1/2) 2 map4 []).1 = GC_ERR ↔
       (matchTemplate 15 7 38 21 20 20 (1/2) 2 map4 []).2 = []) ∧
     (matchTemplate 15 7 38 21 20 20 (1/2) 2 map4 []).2.length ≤ (2 : ℤ).toNat ∧
     (∀ it ∈ (matchTemplate 15 7 38 21 20 20 (1/2) 2 map4 []).2, (1/2 : ℚ) ≤ it.score) ∧
     ((∀ row ∈ map4, ∀ v ∈ row, v < (1/2 : ℚ)) →
       matchTemplate 15 7 38 21 20 20 (1/2) 2 map4 [] = (GC_ERR, []))) :=
  ⟨by norm_num, by norm_num, by norm_num,
   claimC4_amended 15 7 38 21 20 20 (1/2) 2 map4 [] (by norm_num) (by norm_num) (by norm_num)⟩

/-- The vertical span between the first point of the first grid row and the
first point of the last grid row. -/
def gridSpan (m : CalibModel) : ℚ :=
  (ptAt m.pixelPoints (m.gridSize.width * (m.gridSize.height - 1))).y -
    (ptAt m.pixelPoints 0).y

/-- Spec claim (C3): the computed band has vertical extent 1.25 x the grid
row span, endpoints padded outward from the grid rows by 1/8 of that
height, and one SearchLine per 1-pixel step in x. -/
def c3Spec (st : CalibState) : Prop :=
  (calcSearchSwaths st).1 = GC_OK ∧
  (∀ line ∈ (calcSearchSwaths st).2.model.searchLines,
      ((line.bot.y - line.top.y : ℤ) : ℚ) = (5/4) * gridSpan st.model) ∧
  (((calcSearchSwaths st).2.model.searchLines.getD 0 default).top.y =
     cvRound ((ptAt st.model.pixelPoints 0).y - (5/4) * gridSpan st.model / 8)) ∧
  (((calcSearchSwaths st).2.model.searchLines.getD 0 default).bot.y =
     cvRound ((ptAt st.model.pixelPoints
         (st.model.gridSize.width * (st.model.gridSize.height - 1))).y +
       (5/4) * gridSpan st.model / 8)) ∧
  (∀ i : ℕ, i + 1 < (calcSearchSwaths st).2.model.searchLines.length →
     ((calcSearchSwaths st).2.model.searchLines.getD (i + 1) default).top.x =
       ((calcSearchSwaths st).2.model.searchLines.getD i default).top.x + 1)

/-- A concrete valid 2x4 calibration state (top grid row 3 pixels wide, row
span 96) used against claim C3. -/
def M3 : CalibState :=
  { model := { gridSize := ⟨2, 4⟩
               pixelPoints := [⟨0, 0⟩, ⟨3, 0⟩, ⟨0, 32⟩, ⟨3, 32⟩,
                               ⟨0, 64⟩, ⟨3, 64⟩, ⟨0, 96⟩, ⟨3, 96⟩]
               worldPoints := [⟨0, 40⟩, ⟨1, 40⟩, ⟨0, 30⟩, ⟨1, 30⟩,
                               ⟨0, 20⟩, ⟨1, 20⟩, ⟨0, 10⟩, ⟨1, 10⟩]
               moveSearchRegionLft := ⟨0, 0, 0, 0⟩
               moveSearchRegionRgt := ⟨0, 0, 0, 0⟩
               searchLines := [] }
    imgSize := ⟨640, 400⟩
    homogPixToWorld := false
    homogWorldToPix := false }

/-- The search lines CalcSearchSwaths actually computes on M3. -/
def L3 : List LineEnds := [⟨⟨1, -8⟩, ⟨1, 118⟩⟩, ⟨⟨2, -8⟩, ⟨2, 118⟩⟩]

/-- CalcSearchSwaths on M3, evaluated: height = cvRound(1.25*96) = 120,
top y = 0 - 120/8 + (120 >> 4) = -8, bottom y = 96 + 120/8 + (120 >> 4)
= 118, widthTop = 1, so two lines at x = 1 and x = 2. -/
theorem calcSearchSwaths_M3 :
    calcSearchSwaths M3 = (GC_OK, { M3 with model := { M3.model with searchLines := L3 } }) := by
  have hh : swathHeight M3.model = 120 := by
    simp [swathHeight, ptAt, M3]; norm_num [cvRound]
  have hw : swathWidthTop M3.model = 1 := by
    simp [swathWidthTop, ptAt, M3]; norm_num [cvRound]
  have h7 : shr 120 4 = (7 : ℤ) := rfl
  have htop : swathTopLftY M3.model = -8 := by
    unfold swathTopLftY
    rw [hh, h7]
    simp [ptAt, M3]; norm_num
  have hbot : swathBotLftY M3.model M3.imgSize.height = 118 := by
    unfold swathBotLftY
    rw [hh, h7]
    simp [ptAt, M3]; norm_num
  have hxb : swathXIncBot M3.model = 1 := by
    unfold swathXIncBot swathWidthBot
    rw [hw]
    simp [ptAt, M3]
    try norm_num
  have hyi : swathYInc M3.model = 0 := by
    unfold swathYInc
    rw [hh]
    simp [ptAt, M3]
  have htx : swathTopLftX M3.model = 1 := by
    unfold swathTopLftX
    rw [hw]
    simp [ptAt, M3]
  have hbx : swathBotLftX M3.model = 1 := by
    unfold swathBotLftX swathWidthBot
    simp [ptAt, M3]
    try norm_num
  have hg : swathGridValid M3.model := by decide
  simp only [calcSearchSwaths, if_pos hg, htop, hbot, hxb, hyi, htx, hbx, hw]
  have h2 : ((1 : ℤ) + 1).toNat = 2 := rfl
  rw [h2]
  norm_num [swathLines, cvRound, L3]

/-- C3 counterexample: on M3 the buildable band has extent 126 pixels while
1.25 x span is 120, and the top endpoint sits at -8 instead of the claimed
cvRound(0 - 120/8) = -15, because the code adds height >> 4 to both
endpoints — so the claim's extent/padding sentence is false. -/
theorem claimC3_counterexample :
    calcSearchSwaths M3 = (GC_OK, { M3 with model := { M3.model with searchLines := L3 } }) ∧
    ((5/4) * gridSpan M3.model = 120) ∧
    (((L3.getD 0 default).bot.y - (L3.getD 0 default).top.y : ℤ) = 126) ∧
    ¬ c3Spec M3 := by
  have hspan : (5/4) * gridSpan M3.model = 120 := by
    simp [gridSpan, ptAt, M3]
    try norm_num
  refine ⟨calcSearchSwaths_M3, hspan, by decide, fun h => ?_⟩
  obtain ⟨-, hext, -⟩ := h
  have hmem : (⟨⟨1, -8⟩, ⟨1, 118⟩⟩ : LineEnds) ∈
      (calcSearchSwaths M3).2.model.searchLines := by
    rw [calcSearchSwaths_M3]
    exact List.mem_cons_self _ _
  have := hext _ hmem
  rw [hspan] at this
  norm_num at this

/-- C3 amended: for a valid grid, CalcSearchSwaths succeeds and produces
(widthTop + 1) search lines; line i has top point (cvRound(topLftX + i),
cvRound(topLftY + i*yInc)) and bottom point (cvRound(botLftX + i*xIncBot),
cvRound(botLftY + i*yInc)), where topLftY = p0.y - h/8 + (h >> 4) and
botLftY = min(pLast.y + h/8 + (h >> 4), imgHeight - 1) with
h = cvRound(1.25 * span) — i.e. both endpoints carry the extra h >> 4
offset, so the band extent is about span + h/4, not 1.25 * span — and when
topLftX is not exactly half-integral the top x-coordinates advance in
exactly 1-pixel steps. -/
theorem claimC3_amended (st : CalibState) (hv : swathGridValid st.model) :
    (calcSearchSwaths st).1 = GC_OK ∧
    (calcSearchSwaths st).2.model.searchLines.length =
      (swathWidthTop st.model + 1).toNat ∧
    (∀ i : ℕ, i < (swathWidthTop st.model + 1).toNat →
      (calcSearchSwaths st).2.model.searchLines.getD i default =
        ⟨⟨cvRound (swathTopLftX st.model + (i : ℚ)),
          cvRound (swathTopLftY st.model + (i : ℚ) * swathYInc st.model)⟩,
         ⟨cvRound (swathBotLftX st.model + (i : ℚ) * swathXIncBot st.model),
          cvRound (swathBotLftY st.model st.imgSize.height +
            (i : ℚ) * swathYInc st.model)⟩⟩) ∧
    (swathTopLftX st.model - ⌊swathTopLftX st.model⌋ ≠ 1/2 →
      ∀ i : ℕ, i + 1 < (swathWidthTop st.model + 1).toNat →
        ((calcSearchSwaths st).2.model.searchLines.getD (i + 1) default).top.x =
          ((calcSearchSwaths st).2.model.searchLines.getD i default).top.x + 1) := by
  simp only [calcSearchSwaths, if_pos hv]
  refine ⟨trivial, swathLines_length _ _ _ _ _, fun i hi => swathLines_getD _ _ _ i hi _ _,
          fun hne i hi => ?_⟩
  rw [swathLines_getD _ _ _ (i + 1) hi _ _, swathLines_getD _ _ _ i (by omega) _ _]
  show cvRound (swathTopLftX st.model + ((i + 1 : ℕ) : ℚ)) =
    cvRound (swathTopLftX st.model + (i : ℚ)) + 1
  have e1 : ((i + 1 : ℕ) : ℚ) = (((i : ℤ) + 1 : ℤ) : ℚ) := by push_cast; ring
  have e2 : ((i : ℕ) : ℚ) = (((i : ℤ) : ℤ) : ℚ) := by push_cast; ring
  rw [e1, e2, cvRound_add_int _ _ hne, cvRound_add_int _ _ hne]
  ring

/-- Witness for C3 amended: the amended geometry on the concrete state M3. -/
theorem claimC3_amended_witness :
    swathGridValid M3.model ∧
    (calcSearchSwaths M3).1 = GC_OK ∧
    (calcSearchSwaths M3).2.model.searchLines.length =
      (swathWidthTop M3.model + 1).toNat :=
  ⟨by decide, (claimC3_amended M3 (by decide)).1, (claimC3_amended M3 (by decide)).2.1⟩

/-- On enough candidates, SortPoints succeeds with m_matchItems re-sorted by
y and the grid array chunked from it (the move-rectangle updates are carried
in the remaining components). -/
theorem sortPoints_of_le (R C : ℕ) (imgWidth : ℤ) (items : List MatchItem)
    (prevArr : List (List MatchItem)) (rectL rectR : RectI)
    (h : R * C ≤ items.length) :
    (sortPoints R C imgWidth items prevArr rectL rectR).1 = GC_OK ∧
    (sortPoints R C imgWidth items prevArr rectL rectR).2.1 =
      List.insertionSort ptYLe (List.insertionSort scoreGe (items.take (R * C))) ∧
    (sortPoints R C imgWidth items prevArr rectL rectR).2.2.1 =
      gridRows R C (List.insertionSort ptYLe (List.insertionSort scoreGe
        (items.take (R * C)))) := by
  unfold sortPoints
  rw [if_neg (not_lt.mpr h)]
  exact ⟨rfl, rfl, rfl⟩

/-- Spec claim (C6): SortPoints keeps the rows x columns highest-scoring
candidates (no dropped candidate outscores a kept one), with x-coordinates
strictly increasing within each row and y-coordinates strictly increasing
across rows. -/
def sortPointsSpec (R C : ℕ) : Prop :=
  ∀ (imgWidth : ℤ) (items : List MatchItem) (prevArr : List (List MatchItem))
    (rectL rectR : RectI),
    R * C ≤ items.length →
    (sortPoints R C imgWidth items prevArr rectL rectR).1 = GC_OK ∧
    (∀ a ∈ (sortPoints R C imgWidth items prevArr rectL rectR).2.2.1.flatten,
      ∀ b ∈ items, b.score ≤ a.score ∨
        b ∈ (sortPoints R C imgWidth items prevArr rectL rectR).2.2.1.flatten) ∧
    (∀ row ∈ (sortPoints R C imgWidth items prevArr rectL rectR).2.2.1,
      row.Pairwise (fun x y => x.pt.x < y.pt.x)) ∧
    (∀ i j : ℕ, i < j → j < R →
      ∀ a ∈ (sortPoints R C imgWidth items prevArr rectL rectR).2.2.1.getD i [],
      ∀ b ∈ (sortPoints R C imgWidth items prevArr rectL rectR).2.2.1.getD j [],
        a.pt.y < b.pt.y)

/-- Nine candidates for a 4-row x 2-column grid: eight grid markers with
score 1/2 discovered first (two of them sharing x = 10 in the first row)
and a ninth, highest-scoring (9/10) candidate discovered last. -/
def c6items : List MatchItem :=
  [⟨⟨10, 10⟩, 1/2⟩, ⟨⟨10, 21/2⟩, 1/2⟩, ⟨⟨10, 20⟩, 1/2⟩, ⟨⟨20, 20⟩, 1/2⟩,
   ⟨⟨10, 30⟩, 1/2⟩, ⟨⟨20, 30⟩, 1/2⟩, ⟨⟨10, 40⟩, 1/2⟩, ⟨⟨20, 40⟩, 1/2⟩,
   ⟨⟨30, 50⟩, 9/10⟩]

/-- The grid SortPoints actually builds from `c6items`: the first eight
candidates in y-then-x order; the ninth (highest-scoring) one is dropped. -/
def c6grid : List (List MatchItem) :=
  [[⟨⟨10, 10⟩, 1/2⟩, ⟨⟨10, 21/2⟩, 1/2⟩],
   [⟨⟨10, 20⟩, 1/2⟩, ⟨⟨20, 20⟩, 1/2⟩],
   [⟨⟨10, 30⟩, 1/2⟩, ⟨⟨20, 30⟩, 1/2⟩],
   [⟨⟨10, 40⟩, 1/2⟩, ⟨⟨20, 40⟩, 1/2⟩]]

theorem sortPoints_c6items :
    (sortPoints 4 2 640 c6items [] ⟨0, 0, 5, 5⟩ ⟨10, 0, 5, 5⟩).2.2.1 = c6grid := by
  have h := (sortPoints_of_le 4 2 640 c6items [] ⟨0, 0, 5, 5⟩ ⟨10, 0, 5, 5⟩ (by norm_num [c6items])).2.2
  rw [h]
  have htake : c6items.take 8 =
      [⟨⟨10, 10⟩, 1/2⟩, ⟨⟨10, 21/2⟩, 1/2⟩, ⟨⟨10, 20⟩, 1/2⟩, ⟨⟨20, 20⟩, 1/2⟩,
       ⟨⟨10, 30⟩, 1/2⟩, ⟨⟨20, 30⟩, 1/2⟩, ⟨⟨10, 40⟩, 1/2⟩, ⟨⟨20, 40⟩, 1/2⟩] := rfl
  show gridRows 4 2 (List.insertionSort ptYLe (List.insertionSort scoreGe (c6items.take (4 * 2)))) = c6grid
  rw [show (4 * 2 : ℕ) = 8 from rfl, htake]
  norm_num [List.insertionSort, List.orderedInsert, scoreGe, ptYLe, ptXLe, gridRows, c6grid,
    List.range_succ]

/-- C6 counterexample: on `c6items` SortPoints drops the highest-scoring
candidate (score 9/10, discovered ninth) while keeping the eight score-1/2
candidates discovered first — it selects the FIRST rows x columns
candidates, not the highest-scoring ones — and the first grid row contains
two entries with equal x = 10, so x is not strictly increasing either. -/
theorem claimC6_counterexample :
    (sortPoints 4 2 640 c6items [] ⟨0, 0, 5, 5⟩ ⟨10, 0, 5, 5⟩).2.2.1 = c6grid ∧
    (⟨⟨30, 50⟩, 9/10⟩ : MatchItem) ∉ c6grid.flatten ∧
    (⟨⟨30, 50⟩, 9/10⟩ : MatchItem) ∈ c6items ∧
    ¬ ((c6grid.getD 0 []).Pairwise (fun x y => x.pt.x < y.pt.x)) ∧
    ¬ sortPointsSpec 4 2 := by
  have hnin : (⟨⟨30, 50⟩, 9/10⟩ : MatchItem) ∉ c6grid.flatten := by
    norm_num [c6grid]
  refine ⟨sortPoints_c6items, hnin, by norm_num [c6items], by norm_num [c6grid], fun h => ?_⟩
  obtain ⟨-, hkeep, -, -⟩ := h 640 c6items [] ⟨0, 0, 5, 5⟩ ⟨10, 0, 5, 5⟩ (by norm_num [c6items])
  have hmemA : (⟨⟨10, 10⟩, 1/2⟩ : MatchItem) ∈
      (sortPoints 4 2 640 c6items [] ⟨0, 0, 5, 5⟩ ⟨10, 0, 5, 5⟩).2.2.1.flatten := by
    rw [sortPoints_c6items]
    norm_num [c6grid]
  have hmemB : (⟨⟨30, 50⟩, 9/10⟩ : MatchItem) ∈ c6items := by norm_num [c6items]
  rcases hkeep _ hmemA _ hmemB with hle | hmem
  · norm_num at hle
  · rw [sortPoints_c6items] at hmem
    exact hnin hmem

/-- C6 amended: with at least rows x columns candidates, SortPoints keeps
the FIRST rows x columns candidates in discovery order (not the
highest-scoring — the internal score sort only reorders that kept prefix),
partitions them into `rows` consecutive rows of the y-ascending order and
sorts each row by ascending x; the resulting grid is a permutation of that
kept prefix, x-coordinates are non-decreasing within each row (strict only
when distinct) and y-coordinates are non-decreasing across rows; with fewer
than rows x columns candidates it fails with GC_ERR and changes nothing. -/
theorem claimC6_amended (R C : ℕ) (imgWidth : ℤ) (items : List MatchItem)
    (prevArr : List (List MatchItem)) (rectL rectR : RectI)
    (hlen : R * C ≤ items.length) :
    (sortPoints R C imgWidth items prevArr rectL rectR).1 = GC_OK ∧
    (sortPoints R C imgWidth items prevArr rectL rectR).2.2.1.length = R ∧
    (∀ row ∈ (sortPoints R C imgWidth items prevArr rectL rectR).2.2.1, row.length = C) ∧
    ((sortPoints R C imgWidth items prevArr rectL rectR).2.2.1.flatten).Perm
      (items.take (R * C)) ∧
    (∀ row ∈ (sortPoints R C imgWidth items prevArr rectL rectR).2.2.1,
      row.Pairwise ptXLe) ∧
    (∀ i j : ℕ, i < j → j < R →
      ∀ a ∈ (sortPoints R C imgWidth items prevArr rectL rectR).2.2.1.getD i [],
      ∀ b ∈ (sortPoints R C imgWidth items prevArr rectL rectR).2.2.1.getD j [],
        a.pt.y ≤ b.pt.y) ∧
    (∀ items2 : List MatchItem, items2.length < R * C →
      sortPoints R C imgWidth items2 prevArr rectL rectR =
        (GC_ERR, items2, prevArr, rectL, rectR)) := by
  obtain ⟨h1, -, h3⟩ := sortPoints_of_le R C imgWidth items prevArr rectL rectR hlen
  have hbyY : (List.insertionSort ptYLe (List.insertionSort scoreGe
      (items.take (R * C)))).length = R * C := by
    rw [List.length_insertionSort, List.length_insertionSort, List.length_take]
    omega
  refine ⟨h1, ?_, ?_, ?_, ?_, ?_, fun items2 h2 => ?_⟩
  · rw [h3]
    unfold gridRows
    simp only [List.length_map, List.length_range]
  · intro row hrow
    rw [h3] at hrow
    unfold gridRows at hrow
    obtain ⟨i, -, hrw⟩ := List.mem_map.mp hrow
    rw [← hrw, List.length_insertionSort, List.length_map, List.length_range]
  · rw [h3]
    exact (gridRows_flatten_perm R C _ hbyY).trans
      ((List.perm_insertionSort ptYLe _).trans (List.perm_insertionSort scoreGe _))
  · intro row hrow
    rw [h3] at hrow
    unfold gridRows at hrow
    obtain ⟨i, -, hrw⟩ := List.mem_map.mp hrow
    rw [← hrw]
    exact List.sorted_insertionSort ptXLe _
  · intro i j hij hjR a ha b hb
    rw [h3] at ha hb
    exact gridRows_cross C _ R hbyY (List.sorted_insertionSort ptYLe _) i j hij hjR a ha b hb
  · unfold sortPoints
    rw [if_pos h2]

/-- Witness for C6 amended: the amended structure on the concrete nine
candidates. -/
theorem claimC6_amended_witness :
    (4 * 2 ≤ c6items.length) ∧
    (sortPoints 4 2 640 c6items [] ⟨0, 0, 5, 5⟩ ⟨10, 0, 5, 5⟩).1 = GC_OK ∧
    (sortPoints 4 2 640 c6items [] ⟨0, 0, 5, 5⟩ ⟨10, 0, 5, 5⟩).2.2.1.length = 4 ∧
    ((sortPoints 4 2 640 c6items [] ⟨0, 0, 5, 5⟩ ⟨10, 0, 5, 5⟩).2.2.1.flatten).Perm
      (c6items.take (4 * 2)) :=
  ⟨by norm_num [c6items],
   (claimC6_amended 4 2 640 c6items [] ⟨0, 0, 5, 5⟩ ⟨10, 0, 5, 5⟩ (by norm_num [c6items])).1,
   (claimC6_amended 4 2 640 c6items [] ⟨0, 0, 5, 5⟩ ⟨10, 0, 5, 5⟩ (by norm_num [c6items])).2.1,
   (claimC6_amended 4 2 640 c6items [] ⟨0, 0, 5, 5⟩ ⟨10, 0, 5, 5⟩ (by norm_num [c6items])).2.2.2.1⟩

/-- Pointwise 3-decimal quantisation (Save's setprecision(3) on both
coordinates). -/
def q3Pt (p : Pt) : Pt := ⟨q3 p.x, q3 p.y⟩

/-- The model as it comes back from a Save/Load round trip before search
lines and move rectangles are recomputed: quantised points under the same
grid size. -/
def quantModel (m : CalibModel) : CalibModel :=
  { CalibModel.clear with
      gridSize := m.gridSize
      pixelPoints := m.pixelPoints.map q3Pt
      worldPoints := m.worldPoints.map q3Pt }

/-- Rounding to 3 decimals moves a coordinate by at most 1/2000. -/
theorem q3_close (x : ℚ) : |q3 x - x| ≤ 1/2000 := by
  have h := abs_cvRound_sub_le_half (x * 1000)
  have h2 : q3 x - x = ((cvRound (x * 1000) : ℚ) - x * 1000) / 1000 := by
    unfold q3; ring
  rw [h2, abs_div, abs_of_pos (by norm_num : (0 : ℚ) < 1000)]
  rw [div_le_div_iff₀ (by norm_num) (by norm_num)]
  nlinarith [h]

theorem ptAt_map_q3 (l : List Pt) (i : ℕ) (hi : i < l.length) :
    ptAt (l.map q3Pt) (i : ℤ) = q3Pt (ptAt l (i : ℤ)) := by
  unfold ptAt
  rw [Int.toNat_natCast]
  rw [List.getD_eq_getElem _ _ (by simpa using hi), List.getD_eq_getElem _ _ hi,
      List.getElem_map]

/-- The model Calibrate builds before fitting: cleared, with the given grid
size and point lists. -/
def mkGridModel (gs : SizeI) (pp wp : List Pt) : CalibModel :=
  { CalibModel.clear with gridSize := gs, pixelPoints := pp, worldPoints := wp }

/-- Calibrate on valid arguments with both homography fits returning:
succeeds, stores the given points and grid, and recomputes the search lines
from them. -/
theorem calibrate_ok (bowtieDim : ℤ) (b1 b2 : Bool) (st : CalibState)
    (pixelPts worldPts : List Pt) (gridSize imgSize : SizeI)
    (hval : ¬(pixelPts.length ≠ worldPts.length ∨ pixelPts = [] ∨ worldPts = [] ∨
              gridSize.width * gridSize.height ≠ (pixelPts.length : ℤ) ∨
              gridSize.width ≤ 0))
    (hsg : swathGridValid (mkGridModel gridSize pixelPts worldPts)) :
    (calibrate bowtieDim (Except.ok b1) (Except.ok b2) st pixelPts worldPts gridSize
      imgSize).1 = GC_OK ∧
    (calibrate bowtieDim (Except.ok b1) (Except.ok b2) st pixelPts worldPts gridSize
      imgSize).2.model.pixelPoints = pixelPts ∧
    (calibrate bowtieDim (Except.ok b1) (Except.ok b2) st pixelPts worldPts gridSize
      imgSize).2.model.worldPoints = worldPts ∧
    (calibrate bowtieDim (Except.ok b1) (Except.ok b2) st pixelPts worldPts gridSize
      imgSize).2.model.gridSize = gridSize ∧
    (calibrate bowtieDim (Except.ok b1) (Except.ok b2) st pixelPts worldPts gridSize
      imgSize).2.imgSize = imgSize ∧
    (calibrate bowtieDim (Except.ok b1) (Except.ok b2) st pixelPts worldPts gridSize
      imgSize).2.model.searchLines =
      swathLines
        ⟨swathTopLftX (mkGridModel gridSize pixelPts worldPts),
         swathTopLftY (mkGridModel gridSize pixelPts worldPts)⟩
        ⟨swathBotLftX (mkGridModel gridSize pixelPts worldPts),
         swathBotLftY (mkGridModel gridSize pixelPts worldPts) imgSize.height⟩
        (swathXIncBot (mkGridModel gridSize pixelPts worldPts))
        (swathYInc (mkGridModel gridSize pixelPts worldPts))
        (swathWidthTop (mkGridModel gridSize pixelPts worldPts) + 1).toNat := by
  simp only [mkGridModel] at hsg
  simp only [calibrate, calcSearchSwaths, if_neg hval, if_pos hsg, mkGridModel]
  norm_num

/-- Load on a well-counted payload: succeeds, installs the payload's points
and grid, and recomputes the search lines from the loaded points (the
search lines stored in the payload are overwritten). -/
theorem loadCalib_ok (bowtieDim : ℤ) (b1 b2 : Bool) (st : CalibState) (d : SavedCalib)
    (hcount : d.columns * d.rows = (d.pixelPoints.length : ℤ))
    (hval : ¬(d.pixelPoints.length ≠ d.worldPoints.length ∨ d.pixelPoints = [] ∨
              d.worldPoints = [] ∨
              (⟨d.columns, d.rows⟩ : SizeI).width * (⟨d.columns, d.rows⟩ : SizeI).height ≠
                (d.pixelPoints.length : ℤ) ∨
              (⟨d.columns, d.rows⟩ : SizeI).width ≤ 0))
    (hsg : swathGridValid (mkGridModel ⟨d.columns, d.rows⟩ d.pixelPoints d.worldPoints)) :
    (loadCalib bowtieDim (Except.ok b1) (Except.ok b2) st d).1 = GC_OK ∧
    (loadCalib bowtieDim (Except.ok b1) (Except.ok b2) st d).2.model.pixelPoints =
      d.pixelPoints ∧
    (loadCalib bowtieDim (Except.ok b1) (Except.ok b2) st d).2.model.worldPoints =
      d.worldPoints ∧
    (loadCalib bowtieDim (Except.ok b1) (Except.ok b2) st d).2.model.searchLines =
      swathLines
        ⟨swathTopLftX (mkGridModel ⟨d.columns, d.rows⟩ d.pixelPoints d.worldPoints),
         swathTopLftY (mkGridModel ⟨d.columns, d.rows⟩ d.pixelPoints d.worldPoints)⟩
        ⟨swathBotLftX (mkGridModel ⟨d.columns, d.rows⟩ d.pixelPoints d.worldPoints),
         swathBotLftY (mkGridModel ⟨d.columns, d.rows⟩ d.pixelPoints d.worldPoints)
           d.imageHeight⟩
        (swathXIncBot (mkGridModel ⟨d.columns, d.rows⟩ d.pixelPoints d.worldPoints))
        (swathYInc (mkGridModel ⟨d.columns, d.rows⟩ d.pixelPoints d.worldPoints))
        (swathWidthTop (mkGridModel ⟨d.columns, d.rows⟩ d.pixelPoints d.worldPoints) +
          1).toNat := by
  have hc : ¬(d.columns * d.rows ≠ (d.pixelPoints.length : ℤ)) := by
    simpa using hcount
  simp only [loadCalib, if_neg hc]
  exact ⟨(calibrate_ok bowtieDim b1 b2 _ _ _ _ _ hval hsg).1,
         (calibrate_ok bowtieDim b1 b2 _ _ _ _ _ hval hsg).2.1,
         (calibrate_ok bowtieDim b1 b2 _ _ _ _ _ hval hsg).2.2.1,
         (calibrate_ok bowtieDim b1 b2 _ _ _ _ _ hval hsg).2.2.2.2.2⟩

/-- C7 amended: for a valid calibrated model, Save-then-Load succeeds; the
reloaded pixel and world points are the 3-decimal quantisations of the
originals (hence within 1/2000 of them per coordinate), but the search-line
geometry is NOT restored from the file: Load re-runs Calibrate, which
recomputes the search lines from the quantised points, and the recomputed
integer endpoints can differ from the originals by a whole pixel. -/
theorem claimC7_amended (bowtieDim : ℤ) (b1 b2 : Bool) (st : CalibState)
    (hp : st.model.pixelPoints ≠ []) (hwp : st.model.worldPoints ≠ [])
    (hlen : st.model.pixelPoints.length = st.model.worldPoints.length)
    (hgw : 2 ≤ st.model.gridSize.width) (hgh : 4 ≤ st.model.gridSize.height)
    (hsl : st.model.searchLines ≠ [])
    (hprod : st.model.gridSize.width * st.model.gridSize.height =
      (st.model.pixelPoints.length : ℤ)) :
    (saveThenLoad bowtieDim (Except.ok b1) (Except.ok b2) st).1 = GC_OK ∧
    (saveThenLoad bowtieDim (Except.ok b1) (Except.ok b2) st).2.model.pixelPoints =
      st.model.pixelPoints.map q3Pt ∧
    (saveThenLoad bowtieDim (Except.ok b1) (Except.ok b2) st).2.model.worldPoints =
      st.model.worldPoints.map q3Pt ∧
    (∀ i : ℕ, i < st.model.pixelPoints.length →
      |(ptAt (saveThenLoad bowtieDim (Except.ok b1) (Except.ok b2) st).2.model.pixelPoints
          (i : ℤ)).x - (ptAt st.model.pixelPoints (i : ℤ)).x| ≤ 1/2000 ∧
      |(ptAt (saveThenLoad bowtieDim (Except.ok b1) (Except.ok b2) st).2.model.pixelPoints
          (i : ℤ)).y - (ptAt st.model.pixelPoints (i : ℤ)).y| ≤ 1/2000) ∧
    (∀ i : ℕ, i < st.model.worldPoints.length →
      |(ptAt (saveThenLoad bowtieDim (Except.ok b1) (Except.ok b2) st).2.model.worldPoints
          (i : ℤ)).x - (ptAt st.model.worldPoints (i : ℤ)).x| ≤ 1/2000 ∧
      |(ptAt (saveThenLoad bowtieDim (Except.ok b1) (Except.ok b2) st).2.model.worldPoints
          (i : ℤ)).y - (ptAt st.model.worldPoints (i : ℤ)).y| ≤ 1/2000) ∧
    (saveThenLoad bowtieDim (Except.ok b1) (Except.ok b2) st).2.model.searchLines =
      swathLines
        ⟨swathTopLftX (quantModel st.model), swathTopLftY (quantModel st.model)⟩
        ⟨swathBotLftX (quantModel st.model),
         swathBotLftY (quantModel st.model) st.imgSize.height⟩
        (swathXIncBot (quantModel st.model)) (swathYInc (quantModel st.model))
        (swathWidthTop (quantModel st.model) + 1).toNat := by
  have hcsave : ¬(st.model.pixelPoints = [] ∨ st.model.worldPoints = [] ∨
      st.model.pixelPoints.length ≠ st.model.worldPoints.length ∨
      st.model.gridSize.width < 2 ∨ st.model.gridSize.height < 4 ∨
      st.model.searchLines = []) := by
    push_neg
    exact ⟨hp, hwp, hlen, by omega, by omega, hsl⟩
  have hsave : saveCalib st = (GC_OK, some
      ⟨st.imgSize.width, st.imgSize.height, st.model.gridSize.width,
       st.model.gridSize.height, st.model.pixelPoints.map q3Pt,
       st.model.worldPoints.map q3Pt, st.model.moveSearchRegionLft,
       st.model.moveSearchRegionRgt, st.model.searchLines⟩) := by
    simp only [saveCalib, if_neg hcsave]
    rfl
  have hload := loadCalib_ok bowtieDim b1 b2 st
    ⟨st.imgSize.width, st.imgSize.height, st.model.gridSize.width,
     st.model.gridSize.height, st.model.pixelPoints.map q3Pt,
     st.model.worldPoints.map q3Pt, st.model.moveSearchRegionLft,
     st.model.moveSearchRegionRgt, st.model.searchLines⟩
    (by dsimp only; simp only [List.length_map]; exact hprod)
    (by
      dsimp only
      push_neg
      refine ⟨by simp only [List.length_map]; exact hlen,
              by simpa using hp, by simpa using hwp,
              by simp only [List.length_map]; exact hprod, by omega⟩)
    (by
      unfold swathGridValid mkGridModel
      dsimp only
      push_neg
      refine ⟨by simpa using hp, by simpa using hwp,
              by simp only [List.length_map]; rw [hlen], by omega, by omega⟩)
  have hrun : saveThenLoad bowtieDim (Except.ok b1) (Except.ok b2) st =
      loadCalib bowtieDim (Except.ok b1) (Except.ok b2) st
        ⟨st.imgSize.width, st.imgSize.height, st.model.gridSize.width,
         st.model.gridSize.height, st.model.pixelPoints.map q3Pt,
         st.model.worldPoints.map q3Pt, st.model.moveSearchRegionLft,
         st.model.moveSearchRegionRgt, st.model.searchLines⟩ := by
    simp only [saveThenLoad, hsave]
  rw [hrun]
  obtain ⟨h1, h2, h3, h4⟩ := hload
  refine ⟨h1, h2, h3, fun i hi => ?_, fun i hi => ?_, h4⟩
  · rw [h2, ptAt_map_q3 _ _ hi]
    exact ⟨q3_close _, q3_close _⟩
  · rw [h3, ptAt_map_q3 _ _ (by omega)]
    exact ⟨q3_close _, q3_close _⟩

/-- Spec claim (C7): Save then Load yields pixel points, world points and
search-line geometry equal to the original within tolerance `eps`. -/
def roundTripWithin (eps : ℚ) (bowtieDim : ℤ) (fPW fWP : Except Unit Bool)
    (st : CalibState) : Prop :=
  (saveThenLoad bowtieDim fPW fWP st).1 = GC_OK ∧
  (∀ i : ℕ, i < st.model.pixelPoints.length →
    |(ptAt (saveThenLoad bowtieDim fPW fWP st).2.model.pixelPoints (i : ℤ)).x -
      (ptAt st.model.pixelPoints (i : ℤ)).x| ≤ eps ∧
    |(ptAt (saveThenLoad bowtieDim fPW fWP st).2.model.pixelPoints (i : ℤ)).y -
      (ptAt st.model.pixelPoints (i : ℤ)).y| ≤ eps) ∧
  (∀ i : ℕ, i < st.model.worldPoints.length →
    |(ptAt (saveThenLoad bowtieDim fPW fWP st).2.model.worldPoints (i : ℤ)).x -
      (ptAt st.model.worldPoints (i : ℤ)).x| ≤ eps ∧
    |(ptAt (saveThenLoad bowtieDim fPW fWP st).2.model.worldPoints (i : ℤ)).y -
      (ptAt st.model.worldPoints (i : ℤ)).y| ≤ eps) ∧
  (∀ i : ℕ, i < st.model.searchLines.length →
    |((((saveThenLoad bowtieDim fPW fWP st).2.model.searchLines.getD i default).top.y -
        ((st.model.searchLines.getD i default).top.y) : ℤ) : ℚ)| ≤ eps ∧
    |((((saveThenLoad bowtieDim fPW fWP st).2.model.searchLines.getD i default).bot.y -
        ((st.model.searchLines.getD i default).bot.y) : ℤ) : ℚ)| ≤ eps)

/-- A valid calibrated state whose bottom grid row sits at
y = 96.4004 = 241001/2500 (so 1.25 x span = 120.5005 rounds to 121, while
after 3-decimal quantisation 1.25 x 96.4 = 120.5 rounds to 120). -/
def M7base : CalibState :=
  { model := { gridSize := ⟨2, 4⟩
               pixelPoints := [⟨0, 0⟩, ⟨3, 0⟩, ⟨0, 32⟩, ⟨3, 32⟩,
                               ⟨0, 64⟩, ⟨3, 64⟩, ⟨0, (241001 : ℚ)/2500⟩,
                               ⟨3, (241001 : ℚ)/2500⟩]
               worldPoints := [⟨0, 40⟩, ⟨1, 40⟩, ⟨0, 30⟩, ⟨1, 30⟩,
                               ⟨0, 20⟩, ⟨1, 20⟩, ⟨0, 10⟩, ⟨1, 10⟩]
               moveSearchRegionLft := ⟨0, 0, 0, 0⟩
               moveSearchRegionRgt := ⟨0, 0, 0, 0⟩
               searchLines := [] }
    imgSize := ⟨640, 400⟩
    homogPixToWorld := false
    homogWorldToPix := false }

/-- M7base after its own calibration: the search lines Calibrate computes
from the unquantised points (bottom endpoints at y = cvRound(118.5254)
= 119). -/
def M7 : CalibState :=
  { M7base with model := { M7base.model with
      searchLines := [⟨⟨1, -8⟩, ⟨1, 119⟩⟩, ⟨⟨2, -8⟩, ⟨2, 119⟩⟩] } }

/-- M7 is the reachable calibrated state: CalcSearchSwaths on M7base
computes exactly its search lines. -/
theorem calcSearchSwaths_M7base : calcSearchSwaths M7base = (GC_OK, M7) := by
  have hh : swathHeight M7base.model = 121 := by
    simp [swathHeight, ptAt, M7base]; norm_num [cvRound]
  have hw : swathWidthTop M7base.model = 1 := by
    simp [swathWidthTop, ptAt, M7base]; norm_num [cvRound]
  have h7 : shr 121 4 = (7 : ℤ) := rfl
  have htop : swathTopLftY M7base.model = -65/8 := by
    unfold swathTopLftY
    rw [hh, h7]
    simp [ptAt, M7base]; norm_num
  have hbot : swathBotLftY M7base.model M7base.imgSize.height = 592627/5000 := by
    unfold swathBotLftY
    rw [hh, h7]
    simp [ptAt, M7base]; norm_num
  have hxb : swathXIncBot M7base.model = 1 := by
    unfold swathXIncBot swathWidthBot
    rw [hw]
    simp [ptAt, M7base]
    try norm_num
  have hyi : swathYInc M7base.model = 0 := by
    unfold swathYInc
    rw [hh]
    simp [ptAt, M7base]
  have htx : swathTopLftX M7base.model = 1 := by
    unfold swathTopLftX
    rw [hw]
    simp [ptAt, M7base]
  have hbx : swathBotLftX M7base.model = 1 := by
    unfold swathBotLftX swathWidthBot
    simp [ptAt, M7base]
    try norm_num
  have hg : swathGridValid M7base.model := by decide
  simp only [calcSearchSwaths, if_pos hg, htop, hbot, hxb, hyi, htx, hbx, hw]
  have h2 : ((1 : ℤ) + 1).toNat = 2 := rfl
  rw [h2]
  norm_num [swathLines, cvRound, M7, M7base]

/-- The payload Save writes for M7: every coordinate already 3 decimals
except 96.4004, which becomes 96.4 = 482/5. -/
def D7 : SavedCalib :=
  { imageWidth := 640
    imageHeight := 400
    columns := 2
    rows := 4
    pixelPoints := [⟨0, 0⟩, ⟨3, 0⟩, ⟨0, 32⟩, ⟨3, 32⟩,
                    ⟨0, 64⟩, ⟨3, 64⟩, ⟨0, (482 : ℚ)/5⟩, ⟨3, (482 : ℚ)/5⟩]
    worldPoints := [⟨0, 40⟩, ⟨1, 40⟩, ⟨0, 30⟩, ⟨1, 30⟩,
                    ⟨0, 20⟩, ⟨1, 20⟩, ⟨0, 10⟩, ⟨1, 10⟩]
    left := ⟨0, 0, 0, 0⟩
    right := ⟨0, 0, 0, 0⟩
    searchLines := [⟨⟨1, -8⟩, ⟨1, 119⟩⟩, ⟨⟨2, -8⟩, ⟨2, 119⟩⟩] }

theorem saveCalib_M7 : saveCalib M7 = (GC_OK, some D7) := by
  have hc : ¬(M7.model.pixelPoints = [] ∨ M7.model.worldPoints = [] ∨
      M7.model.pixelPoints.length ≠ M7.model.worldPoints.length ∨
      M7.model.gridSize.width < 2 ∨ M7.model.gridSize.height < 4 ∨
      M7.model.searchLines = []) := by decide
  simp only [saveCalib, if_neg hc]
  norm_num [M7, M7base, D7, q3, cvRound]
  simp only [Int.fract]
  norm_num

/-- C7 counterexample: M7 is a reachable calibrated state (its search lines
are exactly what CalcSearchSwaths computes); Save writes its bottom-row y
96.4004 as 96.400, and Load re-runs Calibrate on the quantised points, so
the recomputed bottom search-line endpoints land at y = 118 instead of the
original 119 — a whole-pixel change, far beyond floating-point tolerance
(taken as 1/2 here, generous). -/
theorem claimC7_counterexample :
    calcSearchSwaths M7base = (GC_OK, M7) ∧
    (saveThenLoad 40 (Except.ok true) (Except.ok true) M7).1 = GC_OK ∧
    ((saveThenLoad 40 (Except.ok true) (Except.ok true)
        M7).2.model.searchLines.getD 0 default).bot.y = 118 ∧
    (M7.model.searchLines.getD 0 default).bot.y = 119 ∧
    ¬ roundTripWithin (1/2) 40 (Except.ok true) (Except.ok true) M7 := by
  have hload := loadCalib_ok 40 true true M7 D7 (by decide) (by decide) (by decide)
  have hrun : saveThenLoad 40 (Except.ok true) (Except.ok true) M7 =
      loadCalib 40 (Except.ok true) (Except.ok true) M7 D7 := by
    simp only [saveThenLoad, saveCalib_M7]
  have hh : swathHeight (mkGridModel ⟨D7.columns, D7.rows⟩ D7.pixelPoints D7.worldPoints)
      = 120 := by
    simp [swathHeight, ptAt, mkGridModel, D7]
    norm_num [cvRound]
    try simp only [Int.fract]
    try norm_num
  have hw : swathWidthTop (mkGridModel ⟨D7.columns, D7.rows⟩ D7.pixelPoints D7.worldPoints)
      = 1 := by
    simp [swathWidthTop, ptAt, mkGridModel, D7]
    norm_num [cvRound]
  have h7 : shr 120 4 = (7 : ℤ) := rfl
  have htop : swathTopLftY (mkGridModel ⟨D7.columns, D7.rows⟩ D7.pixelPoints D7.worldPoints)
      = -8 := by
    unfold swathTopLftY
    rw [hh, h7]
    simp [ptAt, mkGridModel, D7]
    try norm_num
  have hbot : swathBotLftY (mkGridModel ⟨D7.columns, D7.rows⟩ D7.pixelPoints D7.worldPoints)
      D7.imageHeight = 592/5 := by
    unfold swathBotLftY
    rw [hh, h7]
    simp [ptAt, mkGridModel, D7]
    norm_num
  have hxb : swathXIncBot (mkGridModel ⟨D7.columns, D7.rows⟩ D7.pixelPoints D7.worldPoints)
      = 1 := by
    unfold swathXIncBot swathWidthBot
    rw [hw]
    simp [ptAt, mkGridModel, D7]
    try norm_num
  have hyi : swathYInc (mkGridModel ⟨D7.columns, D7.rows⟩ D7.pixelPoints D7.worldPoints)
      = 0 := by
    unfold swathYInc
    rw [hh]
    simp [ptAt, mkGridModel, D7]
  have htx : swathTopLftX (mkGridModel ⟨D7.columns, D7.rows⟩ D7.pixelPoints D7.worldPoints)
      = 1 := by
    unfold swathTopLftX
    rw [hw]
    simp [ptAt, mkGridModel, D7]
  have hbx : swathBotLftX (mkGridModel ⟨D7.columns, D7.rows⟩ D7.pixelPoints D7.worldPoints)
      = 1 := by
    unfold swathBotLftX swathWidthBot
    simp [ptAt, mkGridModel, D7]
    try norm_num
  have hlines : (loadCalib 40 (Except.ok true) (Except.ok true) M7 D7).2.model.searchLines =
      [⟨⟨1, -8⟩, ⟨1, 118⟩⟩, ⟨⟨2, -8⟩, ⟨2, 118⟩⟩] := by
    rw [hload.2.2.2, htop, hbot, hxb, hyi, htx, hbx, hw]
    have h2 : ((1 : ℤ) + 1).toNat = 2 := rfl
    rw [h2]
    norm_num [swathLines, cvRound]
  refine ⟨calcSearchSwaths_M7base, by rw [hrun]; exact hload.1,
          by rw [hrun, hlines]; rfl, rfl, fun h => ?_⟩
  obtain ⟨-, -, -, hl⟩ := h
  have hb := (hl 0 (by decide)).2
  rw [hrun, hlines] at hb
  norm_num [M7, M7base] at hb

/-- Witness for C7 amended: the amended round-trip statement instantiated
on the concrete calibrated state M7. -/
theorem claimC7_amended_witness :
    (M7.model.pixelPoints ≠ [] ∧ M7.model.worldPoints ≠ [] ∧
      M7.model.pixelPoints.length = M7.model.worldPoints.length ∧
      2 ≤ M7.model.gridSize.width ∧ 4 ≤ M7.model.gridSize.height ∧
      M7.model.searchLines ≠ [] ∧
      M7.model.gridSize.width * M7.model.gridSize.height =
        (M7.model.pixelPoints.length : ℤ)) ∧
    (saveThenLoad 40 (Except.ok true) (Except.ok true) M7).1 = GC_OK ∧
    (saveThenLoad 40 (Except.ok true) (Except.ok true) M7).2.model.pixelPoints =
      M7.model.pixelPoints.map q3Pt :=
  ⟨⟨by decide, by decide, by decide, by decide, by decide, by decide, by decide⟩,
   (claimC7_amended 40 true true M7 (by decide) (by decide) (by decide) (by decide)
     (by decide) (by decide) (by decide)).1,
   (claimC7_amended 40 true true M7 (by decide) (by decide) (by decide) (by decide)
     (by decide) (by decide) (by decide)).2.1⟩

/-- Witness for C5: a two-candidate list discovered right-before-left still
comes out ordered left-then-right. -/
theorem claimC5_witness :
    findMoveTargetsFrom [⟨⟨3, 1⟩, 1⟩, ⟨⟨2, 2⟩, 1⟩] = (GC_OK, some (⟨2, 2⟩, ⟨3, 1⟩)) ∧
    ((2 : ℚ) ≤ 3 ∧
      (((⟨2, 2⟩ : Pt) = (([⟨⟨3, 1⟩, 1⟩, ⟨⟨2, 2⟩, 1⟩] : List MatchItem).getD 0 default).pt ∧
        (⟨3, 1⟩ : Pt) = (([⟨⟨3, 1⟩, 1⟩, ⟨⟨2, 2⟩, 1⟩] : List MatchItem).getD 1 default).pt) ∨
       ((⟨2, 2⟩ : Pt) = (([⟨⟨3, 1⟩, 1⟩, ⟨⟨2, 2⟩, 1⟩] : List MatchItem).getD 1 default).pt ∧
        (⟨3, 1⟩ : Pt) = (([⟨⟨3, 1⟩, 1⟩, ⟨⟨2, 2⟩, 1⟩] : List MatchItem).getD 0 default).pt))) := by
  have he : findMoveTargetsFrom [⟨⟨3, 1⟩, 1⟩, ⟨⟨2, 2⟩, 1⟩] = (GC_OK, some (⟨2, 2⟩, ⟨3, 1⟩)) := by
    norm_num [findMoveTargetsFrom]
  exact ⟨he, claimC5_findMoveTargets.2.2 [⟨⟨3, 1⟩, 1⟩, ⟨⟨2, 2⟩, 1⟩] ⟨2, 2⟩ ⟨3, 1⟩ he⟩

end Grime2
